import Mathlib

/-!
Verification of the trajectory-planner core (src/src/emc/kinematics/tp.c).

The planner's scalar kinematics use C doubles; here every scalar is modelled
as a rational number.  The C math library (sqrt, trig, acos) is abstracted as
a `MathModel`: a bundle of rational functions.  Theorems quantify over every
`MathModel` whenever the library's values are irrelevant to the property;
closed witnesses and counterexamples use `refMath`, whose functions agree
with the real ones at every argument where they are evaluated (square roots
of perfect squares, acos at 1, ...).

Headers and sibling translation units of the repository (tp.h, tc.h, tcq.c,
posemath.c, motion structs) are not under src/; the few constants, queue
operations and geometric initialisers taken from them are modelled from the
spec and carry a doc comment saying so.  Everything else is translated
directly from tp.c.
-/

/-- Rational stand-in for the C library's sqrt.  Exact on rationals whose
numerator and denominator are perfect squares (every concrete evaluation in
this file is of that form); a nearby under-approximation elsewhere.  No
theorem below depends on its values except at perfect squares. -/
def ratSqrt (q : ℚ) : ℚ :=
  if q ≤ 0 then 0 else (Nat.sqrt q.num.toNat : ℚ) / (Nat.sqrt q.den : ℚ)

/-- Rational stand-in for PM_PI (posemath header is not under src/). -/
def piQ : ℚ := 355 / 113

/-- Rational stand-in for the C library's acos: linear interpolation between
acos 1 = 0 and acos (-1) = π.  Exact at the only arguments where this file
evaluates it (1 and 0, up to the rational π). -/
def ratAcos (x : ℚ) : ℚ :=
  if 1 ≤ x then 0 else if x ≤ -1 then piQ else piQ / 2 * (1 - x)

/-- Rational stand-in for cos (second-order Taylor; never evaluated by a
theorem whose truth depends on its value). -/
def ratCos (x : ℚ) : ℚ := 1 - x ^ 2 / 2

/-- Rational stand-in for sin (third-order Taylor). -/
def ratSin (x : ℚ) : ℚ := x - x ^ 3 / 6

/-- Rational stand-in for tan, from the sin and cos stand-ins. -/
def ratTan (x : ℚ) : ℚ := ratSin x / ratCos x

/-- The C math library as the planner uses it, abstracted to rational
functions so the embedding stays executable. -/
structure MathModel where
  sqrt : ℚ → ℚ
  acos : ℚ → ℚ
  cos : ℚ → ℚ
  sin : ℚ → ℚ
  tan : ℚ → ℚ

/-- The concrete math model used by closed witnesses and counterexamples. -/
def refMath : MathModel :=
  { sqrt := ratSqrt, acos := ratAcos, cos := ratCos, sin := ratSin, tan := ratTan }

/-- A 3-vector (posemath's PmCartesian). -/
structure PmCartesian where
  x : ℚ
  y : ℚ
  z : ℚ
deriving DecidableEq

def zeroCart : PmCartesian := ⟨0, 0, 0⟩

def pmCartCartSub (a b : PmCartesian) : PmCartesian := ⟨a.x - b.x, a.y - b.y, a.z - b.z⟩

def pmCartCartAdd (a b : PmCartesian) : PmCartesian := ⟨a.x + b.x, a.y + b.y, a.z + b.z⟩

def pmCartCartDot (a b : PmCartesian) : ℚ := a.x * b.x + a.y * b.y + a.z * b.z

def pmCartScalMult (a : PmCartesian) (s : ℚ) : PmCartesian := ⟨a.x * s, a.y * s, a.z * s⟩

def pmCartCross (a b : PmCartesian) : PmCartesian :=
  ⟨a.y * b.z - a.z * b.y, a.z * b.x - a.x * b.z, a.x * b.y - a.y * b.x⟩

def pmCartMag (M : MathModel) (a : PmCartesian) : ℚ := M.sqrt (pmCartCartDot a a)

def pmCartUnit (M : MathModel) (a : PmCartesian) : PmCartesian :=
  let m := pmCartMag M a
  if m = 0 then a else ⟨a.x / m, a.y / m, a.z / m⟩

/-- Modelled from the spec: posemath's magnitude fuzz threshold (posemath is
not under src/); only its positivity and smallness are used. -/
def CART_FUZZ : ℚ := 1 / 1000000000

/-- A parameterised Cartesian line (posemath's PmCartLine): start, end, unit
direction, magnitude, zero-magnitude flag (spec section 3). -/
structure PmCartLine where
  start : PmCartesian
  end_ : PmCartesian
  uVec : PmCartesian
  tmag : ℚ
  tmag_zero : Bool
deriving DecidableEq

/-- Modelled from the spec: posemath's pmCartLineInit is not under src/.
Per spec section 3 a line holds start, end, unit direction, magnitude and a
zero-magnitude flag, the unit direction being defined only when the
magnitude exceeds the fuzz threshold. -/
def pmCartLineInit (M : MathModel) (s e : PmCartesian) : PmCartLine :=
  let d := pmCartCartSub e s
  let mag := M.sqrt (pmCartCartDot d d)
  let zero := mag ≤ CART_FUZZ
  { start := s, end_ := e, tmag := mag, tmag_zero := zero,
    uVec := if zero then ⟨0, 0, 0⟩ else ⟨d.x / mag, d.y / mag, d.z / mag⟩ }

def zeroLine : PmCartLine :=
  { start := zeroCart, end_ := zeroCart, uVec := zeroCart, tmag := 0, tmag_zero := true }

/-- A circular/helical segment (posemath's PmCircle): centre, normal, radius,
sweep angle, helical rise vector plus the in-plane basis used by
point-at-arclength (spec section 3). -/
structure PmCircle where
  center : PmCartesian
  normal : PmCartesian
  rTan : PmCartesian
  rPerp : PmCartesian
  rHelix : PmCartesian
  radius : ℚ
  angle : ℚ
deriving DecidableEq

def zeroCircle : PmCircle :=
  { center := zeroCart, normal := zeroCart, rTan := zeroCart, rPerp := zeroCart,
    rHelix := zeroCart, radius := 0, angle := 0 }

/-- Modelled from the spec: posemath's pmCircleInit is not under src/.
Spec section 3 lists the fields (start, end, centre, normal, turn count,
radius, sweep angle, helical rise vector); the formulas below realise them.
No theorem in this file depends on the values this produces. -/
def pmCircleInit (M : MathModel) (start end_ center normal : PmCartesian)
    (turn : Int) : PmCircle :=
  let rTan := pmCartCartSub start center
  let rEnd := pmCartCartSub end_ center
  let radius := pmCartMag M rTan
  let rPerp := pmCartCross normal rTan
  let dot := pmCartCartDot (pmCartUnit M rTan) (pmCartUnit M rEnd)
  let angle := M.acos dot + 2 * piQ * (turn : ℚ)
  let nUnit := pmCartUnit M normal
  let rHelix := pmCartScalMult nUnit (pmCartCartDot (pmCartCartSub end_ start) nUnit)
  { center := center, normal := normal, rTan := rTan, rPerp := rPerp,
    rHelix := rHelix, radius := radius, angle := angle }

/-- Modelled from the spec: point-at-arclength on a circle is closed-form
(spec section 3); parameterised here by swept angle as posemath does. -/
def pmCirclePoint (M : MathModel) (c : PmCircle) (angle : ℚ) : PmCartesian :=
  let inPlane := pmCartCartAdd (pmCartScalMult c.rTan (M.cos angle))
      (pmCartScalMult c.rPerp (M.sin angle))
  let p := pmCartCartAdd c.center inPlane
  pmCartCartAdd p (pmCartScalMult c.rHelix (if c.angle = 0 then 0 else angle / c.angle))

/-- The nine-axis pose (EmcPose). -/
structure EmcPose where
  tran : PmCartesian
  a : ℚ
  b : ℚ
  c : ℚ
  u : ℚ
  v : ℚ
  w : ℚ
deriving DecidableEq

def zeroEmcPose : EmcPose := { tran := zeroCart, a := 0, b := 0, c := 0, u := 0, v := 0, w := 0 }

/-- tpConvertEmcPosetoPmCartesian, xyz part. -/
def xyzOf (p : EmcPose) : PmCartesian := p.tran

/-- tpConvertEmcPosetoPmCartesian, abc part. -/
def abcOf (p : EmcPose) : PmCartesian := ⟨p.a, p.b, p.c⟩

/-- tpConvertEmcPosetoPmCartesian, uvw part. -/
def uvwOf (p : EmcPose) : PmCartesian := ⟨p.u, p.v, p.w⟩

/-- Modelled from the spec: tc.h is not under src/.  The three termination
conditions; only their distinctness and being nonzero are used (tp.c also
stores a literal 0 in a rigid tap's term_cond). -/
def TC_TERM_COND_STOP : Int := 1

def TC_TERM_COND_PARABOLIC : Int := 2

def TC_TERM_COND_TANGENT : Int := 3

/-- Modelled from the spec: tc.h is not under src/.  Motion kinds. -/
def TC_LINEAR : Int := 1

def TC_CIRCULAR : Int := 2

def TC_RIGIDTAP : Int := 3

/-- Modelled from the spec: tc.h is not under src/.  Sync modes; None must be
0 because tp.c tests `!tc->synchronized`. -/
def TC_SYNC_NONE : Int := 0

def TC_SYNC_VELOCITY : Int := 1

def TC_SYNC_POSITION : Int := 2

/-- Modelled from the spec: motion_types.h is not under src/; only the
constant's distinctness is used. -/
def EMC_MOTION_TYPE_TRAVERSE : Int := 1

/-- Modelled from the spec: tc.h is not under src/.  Rigid-tap substates. -/
def TAPPING : Int := 1

def REVERSING : Int := 2

def RETRACTION : Int := 3

def FINAL_REVERSAL : Int := 4

def FINAL_PLACEMENT : Int := 5

/-- Modelled from the spec: tp.h is not under src/.  Angle epsilon used as
the critical blend-arc angle; only positivity and smallness are used. -/
def TP_ANGLE_EPSILON : ℚ := 1 / 10000

/-- Modelled from the spec: tp.h is not under src/.  Magnitude epsilon. -/
def TP_MAG_EPSILON : ℚ := 1 / 1000000

/-- Modelled from the spec: tp.h is not under src/.  Acceleration epsilon. -/
def TP_ACCEL_EPSILON : ℚ := 1 / 1000000

/-- Modelled from the spec: tp.h is not under src/.  Look-ahead walk bound;
only that it is at least 2 matters to the theorems. -/
def TP_LOOKAHEAD_DEPTH : Nat := 10

/-- The staged DIO/AIO batch (syncdio_t). -/
structure SyncDio where
  anychanged : Int
  dio_mask : Int
  aio_mask : Int
  dios : List Int
  aios : List ℚ
deriving DecidableEq

def zeroSyncDio : SyncDio :=
  { anychanged := 0, dio_mask := 0, aio_mask := 0, dios := [], aios := [] }

/-- The slice of emcmot_status_t that tp.c reads or writes in the functions
modelled here. -/
structure EmcmotStatus where
  net_feed_scale : ℚ
  spindleSync : Int
  current_vel : ℚ
  requested_vel : ℚ
  distance_to_go : ℚ
  dtg : EmcPose
deriving DecidableEq

/-- Line geometry of a TC_STRUCT (coords.line). -/
structure TcLineCoords where
  xyz : PmCartLine
  uvw : PmCartLine
  abc : PmCartLine
deriving DecidableEq

/-- Circle geometry of a TC_STRUCT (coords.circle). -/
structure TcCircleCoords where
  xyz : PmCircle
  uvw : PmCartLine
  abc : PmCartLine
deriving DecidableEq

/-- Rigid-tap geometry of a TC_STRUCT (coords.rigidtap). -/
structure TcRigidTapCoords where
  xyz : PmCartLine
  aux_xyz : PmCartLine
  abc : PmCartesian
  uvw : PmCartesian
  reversal_target : ℚ
  spindlerevs_at_reversal : ℚ
  state : Int
deriving DecidableEq

/-- One queued motion segment (TC_STRUCT).  The C coords union is modelled as
a product: each member coexists and the motion_type tag says which one the
code reads, exactly as the running code does for a well-formed segment. -/
structure TC_STRUCT where
  id : Int
  motion_type : Int
  canon_motion_type : Int
  target : ℚ
  progress : ℚ
  reqvel : ℚ
  maxvel : ℚ
  finalvel : ℚ
  currentvel : ℚ
  maxaccel : ℚ
  accel_scale : ℚ
  cycle_time : ℚ
  term_cond : Int
  tolerance : ℚ
  synchronized : Int
  uu_per_rev : ℚ
  sync_accel : Int
  atspeed : Bool
  active : Bool
  blending : Bool
  atpeak : Bool
  blend_vel : ℚ
  vel_at_blend_start : ℚ
  enables : Int
  indexrotary : Int
  syncdio : SyncDio
  coords_line : TcLineCoords
  coords_circle : TcCircleCoords
  coords_rigidtap : TcRigidTapCoords
deriving DecidableEq

def zeroLineCoords : TcLineCoords := { xyz := zeroLine, uvw := zeroLine, abc := zeroLine }

def zeroCircleCoords : TcCircleCoords := { xyz := zeroCircle, uvw := zeroLine, abc := zeroLine }

def zeroRigidTapCoords : TcRigidTapCoords :=
  { xyz := zeroLine, aux_xyz := zeroLine, abc := zeroCart, uvw := zeroCart,
    reversal_target := 0, spindlerevs_at_reversal := 0, state := 0 }

/-- An all-zero segment, standing for the uninitialised C stack TC_STRUCT
that each tpAdd function fills in field by field. -/
def defaultTC : TC_STRUCT :=
  { id := 0, motion_type := 0, canon_motion_type := 0, target := 0, progress := 0,
    reqvel := 0, maxvel := 0, finalvel := 0, currentvel := 0, maxaccel := 0,
    accel_scale := 0, cycle_time := 0, term_cond := 0, tolerance := 0,
    synchronized := 0, uu_per_rev := 0, sync_accel := 0, atspeed := false,
    active := false, blending := false, atpeak := false, blend_vel := 0,
    vel_at_blend_start := 0, enables := 0, indexrotary := 0, syncdio := zeroSyncDio,
    coords_line := zeroLineCoords, coords_circle := zeroCircleCoords,
    coords_rigidtap := zeroRigidTapCoords }

/-- Modelled from the spec: tcq.c is not under src/.  The bounded segment
queue (spec section 4.1): capacity fixed at creation, O(1) put / pops /
index access, put fails when full. -/
structure TcQueue where
  size : Nat
  elems : List TC_STRUCT
deriving DecidableEq

/-- Modelled from the spec: append, failing (-1) when the queue is full. -/
def tcqPut (q : TcQueue) (tc : TC_STRUCT) : Int × TcQueue :=
  if q.size ≤ q.elems.length then (-1, q) else (0, { q with elems := q.elems ++ [tc] })

/-- Modelled from the spec: drop the most recently appended segment. -/
def tcqPopBack (q : TcQueue) : Int × TcQueue :=
  if q.elems.isEmpty then (-1, q) else (0, { q with elems := q.elems.dropLast })

/-- Modelled from the spec: clear the queue without freeing its arena. -/
def tcqInitQ (q : TcQueue) : TcQueue := { q with elems := [] }

/-- Modelled from the spec: 0-indexed access from the head; out of range
(including a negative index) yields none, as the C call yields NULL. -/
def tcqItemL (l : List TC_STRUCT) (i : Int) : Option TC_STRUCT :=
  if 0 ≤ i then l.get? i.toNat else none

/-- Modelled from the spec: the most recently appended segment, if any. -/
def tcqLast (q : TcQueue) : Option TC_STRUCT := q.elems.getLast?

/-- Modelled from the spec: the number of queued segments. -/
def tcqLen (q : TcQueue) : Int := (q.elems.length : Int)

/-- The queue is at capacity, so the next put fails. -/
def tcqFull (q : TcQueue) : Prop := q.size ≤ q.elems.length

instance (q : TcQueue) : Decidable (tcqFull q) := by
  unfold tcqFull; infer_instance

/-- The planner's spindle bookkeeping (TP_SPINDLE_STATUS part of TP_STRUCT). -/
structure TpSpindle where
  offset : ℚ
  revs : ℚ
  waiting_for_index : Int
  waiting_for_atspeed : Int
deriving DecidableEq

/-- The trajectory planner state (TP_STRUCT). -/
structure TP_STRUCT where
  queue : TcQueue
  queueSize : Int
  cycleTime : ℚ
  currentPos : EmcPose
  goalPos : EmcPose
  nextId : Int
  execId : Int
  motionType : Int
  termCond : Int
  tolerance : ℚ
  done : Int
  depth : Int
  activeDepth : Int
  aborting : Bool
  pausing : Bool
  vLimit : ℚ
  vScale : ℚ
  aMax : ℚ
  vMax : ℚ
  ini_maxvel : ℚ
  wMax : ℚ
  wDotMax : ℚ
  spindle : TpSpindle
  synchronized : Int
  uu_per_rev : ℚ
  velocity_mode : Bool
deriving DecidableEq

/-- The file-scope globals tp.c touches: the staged DIO batch and the shared
status block. -/
structure Globals where
  status : EmcmotStatus
  syncdio : SyncDio
deriving DecidableEq

/-- tp.c tpClearDIOs: zero the staged DIO/AIO batch (returns 0 in C). -/
def tpClearDIOsG (g : Globals) : Globals :=
  { g with syncdio :=
    { anychanged := 0, dio_mask := 0, aio_mask := 0,
      dios := g.syncdio.dios.map (fun _ => 0),
      aios := g.syncdio.aios.map (fun _ => 0) } }

/-- tp.c tpGetFeedOverride: the feed override applied to a segment.  The C
null-pointer arguments are modelled away (every caller passes valid
structs). -/
def tpGetFeedOverride (tp : TP_STRUCT) (st : EmcmotStatus) (tc : TC_STRUCT) : ℚ :=
  if tc.canon_motion_type = EMC_MOTION_TYPE_TRAVERSE ∨ tc.synchronized = TC_SYNC_POSITION then 1
  else if tp.pausing ∨ tp.aborting then 0
  else st.net_feed_scale

/-- tp.c tpGetReqVel. -/
def tpGetReqVel (tp : TP_STRUCT) (st : EmcmotStatus) (tc : TC_STRUCT) : ℚ :=
  tc.reqvel * tpGetFeedOverride tp st tc

/-- tp.c tpGetFinalVel. -/
def tpGetFinalVel (tp : TP_STRUCT) (st : EmcmotStatus) (tc : TC_STRUCT) : ℚ :=
  tc.finalvel * tpGetFeedOverride tp st tc

/-- tp.c tpGetScaledAccel (the tp argument is unused by the C body too). -/
def tpGetScaledAccel (tp : TP_STRUCT) (tc : TC_STRUCT) : ℚ :=
  if tc.accel_scale < 0 then 0 else tc.maxaccel * tc.accel_scale

/-- tp.c tpClipVelocityLimit: cap maxvel at the sample-rate bound
0.5 * target / cycleTime.  The C function always returns 0, so only the
updated segment is returned here. -/
def tpClipVelocityLimit (tp : TP_STRUCT) (tc : TC_STRUCT) : TC_STRUCT :=
  let sample_maxvel := 1 / 2 * tc.target / tp.cycleTime
  if tc.maxvel > sample_maxvel then { tc with maxvel := sample_maxvel } else tc

/-- tp.c tpErrorCheck: -1 when the planner is aborting (the null check is
modelled away). -/
def tpErrorCheck (tp : TP_STRUCT) : Int := if tp.aborting then -1 else 0

/-- tp.c tpClear: soft re-initialisation; keeps cycleTime/vMax/aMax, clears
the queue and runtime flags, snaps the goal to the current position, and
clears the staged DIO batch.  Returns the C function's value (0, from
tpClearDIOs). -/
def tpClear (tp : TP_STRUCT) (g : Globals) : Int × TP_STRUCT × Globals :=
  let tp1 := { tp with
    queue := tcqInitQ tp.queue, queueSize := 0,
    goalPos := tp.currentPos, nextId := 0, execId := 0, motionType := 0,
    termCond := TC_TERM_COND_PARABOLIC, tolerance := 0, done := 1,
    depth := 0, activeDepth := 0, aborting := false, pausing := false,
    vScale := g.status.net_feed_scale, synchronized := 0, uu_per_rev := 0 }
  let st1 := { g.status with
    spindleSync := 0, current_vel := 0,
    requested_vel := 0, distance_to_go := 0, dtg := zeroEmcPose }
  let g1 := tpClearDIOsG { g with status := st1 }
  (0, tp1, g1)

/-- tp.c tpSetCycleTime: rejects non-positive cycle times. -/
def tpSetCycleTime (tp : TP_STRUCT) (secs : ℚ) : Int × TP_STRUCT :=
  if secs ≤ 0 then (-1, tp) else (0, { tp with cycleTime := secs })

/-- tp.c tpSetVmax: rejects non-positive vMax or ini_maxvel. -/
def tpSetVmax (tp : TP_STRUCT) (vMax ini_maxvel : ℚ) : Int × TP_STRUCT :=
  if vMax ≤ 0 ∨ ini_maxvel ≤ 0 then (-1, tp)
  else (0, { tp with vMax := vMax, ini_maxvel := ini_maxvel })

/-- tp.c tpSetVlimit: a negative argument is stored as 0 and the call still
returns 0. -/
def tpSetVlimit (tp : TP_STRUCT) (vLimit : ℚ) : Int × TP_STRUCT :=
  if vLimit < 0 then (0, { tp with vLimit := 0 }) else (0, { tp with vLimit := vLimit })

/-- tp.c tpSetAmax: rejects non-positive accelerations. -/
def tpSetAmax (tp : TP_STRUCT) (aMax : ℚ) : Int × TP_STRUCT :=
  if aMax ≤ 0 then (-1, tp) else (0, { tp with aMax := aMax })

/-- tp.c tpSetPos: sets the current AND goal position. -/
def tpSetPos (tp : TP_STRUCT) (pos : EmcPose) : Int × TP_STRUCT :=
  (0, { tp with currentPos := pos, goalPos := pos })

/-- tp.c tpGetPos (the out-parameter is the second component). -/
def tpGetPos (tp : TP_STRUCT) : Int × EmcPose := (0, tp.currentPos)

/-- tp.c tpIsDone. -/
def tpIsDone (tp : TP_STRUCT) : Int := tp.done

/-- tp.c tpInitializeNewSegment: the common runtime-field preamble of every
tpAdd function; reqvel is capped by ini_maxvel here. -/
def tpInitializeNewSegment (tp : TP_STRUCT) (vel ini_maxvel acc : ℚ)
    (enables : Int) : TC_STRUCT :=
  { defaultTC with
    sync_accel := 0, cycle_time := tp.cycleTime, id := -1, progress := 0,
    maxaccel := acc, maxvel := ini_maxvel, reqvel := min vel ini_maxvel,
    active := false, currentvel := 0, blending := false, blend_vel := 0,
    vel_at_blend_start := 0, finalvel := 0, enables := enables,
    atpeak := false, accel_scale := 1 }

/-- tp.c tpFindIntersectionAngle: half the angle acos(-u1 . u2); C's int
status plus out-parameter become an Option. -/
def tpFindIntersectionAngle (M : MathModel) (u1 u2 : PmCartesian) : Option ℚ :=
  let dot := pmCartCartDot u1 u2
  if dot > 1 ∨ dot < -1 then none else some (M.acos (-dot) / 2)

/-- tp.c tpCalculateUnitCartAngle: acos(u1 . u2) as an Option. -/
def tpCalculateUnitCartAngle (M : MathModel) (u1 u2 : PmCartesian) : Option ℚ :=
  let dot := pmCartCartDot u1 u2
  if dot > 1 ∨ dot < -1 then none else some (M.acos dot)

/-- Modelled from the spec: tc.c is not under src/.  Ending unit tangent of a
segment, dispatched on its kind (spec sections 3 and 4.5).  No theorem
depends on the circular case's value. -/
def tcGetEndingUnitVector (M : MathModel) (tc : TC_STRUCT) : PmCartesian :=
  if tc.motion_type = TC_LINEAR then tc.coords_line.xyz.uVec
  else if tc.motion_type = TC_RIGIDTAP then tc.coords_rigidtap.xyz.uVec
  else
    let c := tc.coords_circle.xyz
    pmCartUnit M (pmCartCross c.normal (pmCartCartSub (pmCirclePoint M c c.angle) c.center))

/-- Modelled from the spec: tc.c is not under src/.  Starting unit tangent of
a segment (spec sections 3 and 4.5). -/
def tcGetStartingUnitVector (M : MathModel) (tc : TC_STRUCT) : PmCartesian :=
  if tc.motion_type = TC_LINEAR then tc.coords_line.xyz.uVec
  else if tc.motion_type = TC_RIGIDTAP then tc.coords_rigidtap.xyz.uVec
  else
    let c := tc.coords_circle.xyz
    pmCartUnit M (pmCartCross c.normal (pmCartCartSub (pmCirclePoint M c 0) c.center))

/-- tp.c tpComputeBlendVelocity: the safe parabolic blend velocity between tc
and nexttc (0 when nexttc is NULL or its scaled accel is 0). -/
def tpComputeBlendVelocity (M : MathModel) (tp : TP_STRUCT) (st : EmcmotStatus)
    (tc : TC_STRUCT) (nexttc : Option TC_STRUCT) : ℚ :=
  match nexttc with
  | none => 0
  | some nx =>
    let acc_this := tpGetScaledAccel tp tc
    let acc_next := tpGetScaledAccel tp nx
    if acc_next = 0 then 0
    else
      let v_peak_this := M.sqrt (tc.target * acc_this)
      let v_peak_next := M.sqrt (nx.target * acc_next)
      let bv0 := min v_peak_this v_peak_next
      let bv1 := if bv0 > tpGetReqVel tp st nx then tpGetReqVel tp st nx else bv0
      let bv2 := if acc_this < acc_next then bv1 * (acc_this / acc_next) else bv1
      if tc.tolerance ≠ 0 then
        let dot := pmCartCartDot (tcGetEndingUnitVector M tc) (tcGetStartingUnitVector M nx)
        let theta := M.acos (-dot) / 2
        if M.cos theta > 1 / 1000 then
          let tblend_vel := 2 * M.sqrt (acc_this * tc.tolerance / M.cos theta)
          if tblend_vel < bv2 then tblend_vel else bv2
        else bv2
      else bv2

/-- tp.c saturate: clip a value to [-max, max]. -/
def saturate (x mx : ℚ) : ℚ := if x > mx then mx else if x < -mx then -mx else x

/-- tp.c tpCreateBlendArc: compute the blend arc between two lines.  The
source ends its computation with an unconditional `return -1` (marked
TEMPORARY) placed before the arc is initialised, so the returned segment is
the scratch blend_tc with only accel_scale and maxaccel filled in; the
dead construction tail (tpInitBlendArc, pmCircleFromPoints,
tpApplyBlendArcParameters) is after that return and is not modelled. -/
def tpCreateBlendArc (M : MathModel) (tp : TP_STRUCT) (st : EmcmotStatus)
    (prev_tc tc blend_tc : TC_STRUCT) : Int × TC_STRUCT :=
  match tpFindIntersectionAngle M prev_tc.coords_line.xyz.uVec tc.coords_line.xyz.uVec with
  | none => (-1, blend_tc)
  | some theta =>
    let acc_split : ℚ := 1
    let v_req := max prev_tc.reqvel tc.reqvel
    let a_max := min prev_tc.maxaccel tc.maxaccel
    let acc_safety_factor : ℚ := 98 / 100
    let a_n_max := a_max / M.sqrt (1 + 1 / acc_split ^ 2) * acc_safety_factor
    let blend1 := { blend_tc with accel_scale := 1 / M.sqrt (1 + acc_split ^ 2),
                                  maxaccel := a_max }
    let T1 := if prev_tc.tolerance = 0 then 10000000 else prev_tc.tolerance
    let T2 := if tc.tolerance = 0 then 10000000 else tc.tolerance
    let tolerance := min T1 T2
    let Ctheta := M.cos theta
    let Stheta := M.sin theta
    let Ttheta := M.tan theta
    let tmp := 1 - Stheta
    if ¬ (tmp > TP_ANGLE_EPSILON) then (-1, blend1)
    else
      let h_tol := tolerance / tmp
      let d_tol := Ctheta * h_tol
      let blend_split : ℚ := 1 / 2
      let L1 := prev_tc.target
      let L2 := tc.target
      let d_prev := L1 * 1
      let d_next := L2 * blend_split
      let d_geom := min (min d_prev d_next) d_tol
      let R_geom := Ttheta * d_geom
      let v_normal := M.sqrt (a_n_max * R_geom)
      let v_upper0 := min v_req v_normal
      if ¬ (a_n_max > TP_ACCEL_EPSILON) then (-1, blend1)
      else
        let R_normal := v_upper0 ^ 2 / a_n_max
        let R_upper0 := min R_normal R_geom
        let d_upper0 := R_upper0 / Ttheta
        let phi := piQ - theta * 2
        let L_prev := L1 - d_upper0
        if L_prev < -TP_MAG_EPSILON then (-1, blend1)
        else
          let dv :=
            if L_prev < TP_MAG_EPSILON then (d_upper0 + L_prev, v_upper0)
            else
              let v_sample := phi * d_upper0 * Ttheta / tp.cycleTime
              let v_upper1 := min v_upper0 v_sample
              let d_sample := v_upper1 * tp.cycleTime / (phi * Ttheta)
              let v1_sample := (L1 - d_sample) / tp.cycleTime
              if v1_sample < v_upper1 then (L1 / (1 + phi * Ttheta), v1_sample)
              else (d_upper0, v_upper1)
          let v_upper := dv.2
          let R_upper := dv.1 * Ttheta
          let v_parabolic := tpComputeBlendVelocity M tp st prev_tc (some tc)
          if v_upper < v_parabolic then (-1, blend1)
          else if R_upper < TP_MAG_EPSILON then (-1, blend1)
          else (-1, blend1)

/-- tp.c tpAddSegmentToQueue: stamp the id, append, and on success advance
the goal pose and bookkeeping; on a full queue return -1 with the planner
untouched. -/
def tpAddSegmentToQueue (tp : TP_STRUCT) (tc : TC_STRUCT) (e : EmcPose) : Int × TP_STRUCT :=
  let tc1 := { tc with id := tp.nextId }
  let pr := tcqPut tp.queue tc1
  if pr.1 = -1 then (-1, tp)
  else (0, { tp with
    queue := pr.2, goalPos := e, done := 0,
    depth := tcqLen pr.2, nextId := tp.nextId + 1 })

/-- The TC built by tp.c tpAddRigidTap (every field write of the C body; the
construction is pure, so it is factored out ahead of the synchronisation
test, whose outcome does not depend on it). -/
def tpAddRigidTapTC (M : MathModel) (g : Globals) (tp : TP_STRUCT) (end_ : EmcPose)
    (vel ini_maxvel acc : ℚ) (enables : Int) : TC_STRUCT :=
  let line_xyz := pmCartLineInit M (xyzOf tp.goalPos) (xyzOf end_)
  let tc0 := tpInitializeNewSegment tp vel ini_maxvel acc enables
  { tc0 with
    target := line_xyz.tmag + 10 * tp.uu_per_rev,
    atspeed := true,
    coords_rigidtap := { tc0.coords_rigidtap with
      reversal_target := line_xyz.tmag, xyz := line_xyz,
      abc := abcOf tp.goalPos, uvw := uvwOf tp.goalPos, state := TAPPING },
    motion_type := TC_RIGIDTAP, canon_motion_type := 0, term_cond := 0,
    tolerance := tp.tolerance,
    synchronized := tp.synchronized,
    uu_per_rev := tp.uu_per_rev, indexrotary := -1,
    syncdio := if g.syncdio.anychanged ≠ 0 then g.syncdio
               else { tc0.syncdio with anychanged := 0 } }

/-- tp.c tpAddRigidTap: enqueue a rigid-tap cycle; rejected without spindle
synchronisation (before the queue or goal pose are touched). -/
def tpAddRigidTap (M : MathModel) (g : Globals) (tp : TP_STRUCT) (end_ : EmcPose)
    (vel ini_maxvel acc : ℚ) (enables : Int) : Int × TP_STRUCT × Globals :=
  if tpErrorCheck tp ≠ 0 then (-1, tp, g)
  else if tp.synchronized = 0 then (-1, tp, g)
  else
    let tc2 := tpAddRigidTapTC M g tp end_ vel ini_maxvel acc enables
    let g1 := if g.syncdio.anychanged ≠ 0 then tpClearDIOsG g else g
    let ares := tpAddSegmentToQueue tp tc2 end_
    (ares.1, ares.2, g1)

/-- tp.c tpCheckNeedBlendArc: 0 = build an arc, 1 = already tangent (promote),
-1 = fall back to a parabolic blend.  The nearly-tangent test comes before
the motion-type / term_cond / rotary-axis checks, exactly as in the source
(v_req and a_max are computed there but steer nothing).  The C null checks
are modelled away: the only caller has already dereferenced both segments. -/
def tpCheckNeedBlendArc (M : MathModel) (tp : TP_STRUCT) (prev_tc tc : TC_STRUCT)
    (period : ℚ) : Int :=
  match tpCalculateUnitCartAngle M prev_tc.coords_line.xyz.uVec tc.coords_line.xyz.uVec with
  | none => -1
  | some omega =>
    let crit_angle := TP_ANGLE_EPSILON
    if omega < crit_angle then 1
    else if piQ - omega < crit_angle then -1
    else if ¬ (prev_tc.motion_type = TC_LINEAR) ∨ ¬ (tc.motion_type = TC_LINEAR) then -1
    else if prev_tc.term_cond ≠ TC_TERM_COND_PARABOLIC then -1
    else if prev_tc.coords_line.abc.tmag > TP_MAG_EPSILON ∨
            tc.coords_line.abc.tmag > TP_MAG_EPSILON then -1
    else if prev_tc.coords_line.uvw.tmag > TP_MAG_EPSILON ∨
            tc.coords_line.uvw.tmag > TP_MAG_EPSILON then -1
    else 0

/-- tp.c tcConnectBlendArc: trim the two lines around a finished blend arc;
returns 1 when the previous segment collapsed and must be popped. -/
def tcConnectBlendArc (M : MathModel) (prev_tc tc blend_tc : TC_STRUCT) :
    Int × TC_STRUCT × TC_STRUCT :=
  let circ := blend_tc.coords_circle.xyz
  let start_xyz := pmCirclePoint M circ 0
  let end_xyz := pmCirclePoint M circ circ.angle
  let prevLine := pmCartLineInit M prev_tc.coords_line.xyz.start start_xyz
  let tcLine := pmCartLineInit M end_xyz tc.coords_line.xyz.end_
  let prev2 := { prev_tc with
    coords_line := { prev_tc.coords_line with xyz := prevLine },
    target := prevLine.tmag, term_cond := TC_TERM_COND_TANGENT }
  let tc2 := { tc with
    coords_line := { tc.coords_line with xyz := tcLine }, target := tcLine.tmag }
  if prev2.target < 1 / 1000000 then (1, prev2, tc2) else (0, prev2, tc2)

/-- The write one iteration of tp.c tpRunOptimization performs on the
predecessor of a tangent pair: vs = sqrt(tc.finalvel^2 + 2*acc*tc.target);
above tc.maxvel the final velocity is capped there and atpeak is set,
otherwise vs is stored and atpeak cleared. -/
def optPairUpdate (M : MathModel) (tp : TP_STRUCT) (prev_tc tc : TC_STRUCT) : TC_STRUCT :=
  let acc := tpGetScaledAccel tp tc
  let vs := M.sqrt (tc.finalvel ^ 2 + 2 * acc * tc.target)
  if vs > tc.maxvel
    then { prev_tc with finalvel := tc.maxvel, atpeak := true }
    else { prev_tc with finalvel := vs, atpeak := false }

/-- The body of tp.c tpRunOptimization's backward walk, one iteration per
fuel unit: the C loop `for (x = 1; x < TP_LOOKAHEAD_DEPTH; ++x)` is entered
with fuel = TP_LOOKAHEAD_DEPTH - 1.  len is the queue length captured once,
as in the source. -/
def tpOptLoop (M : MathModel) (tp : TP_STRUCT) (len : Int) :
    Nat → Nat → List TC_STRUCT → List TC_STRUCT
  | 0, _, q => q
  | Nat.succ fuel, x, q =>
    let ind : Int := len - (x : Int)
    match tcqItemL q ind, tcqItemL q (ind - 1) with
    | some tc, some prev_tc =>
      if prev_tc.term_cond ≠ TC_TERM_COND_TANGENT then q
      else if prev_tc.progress > 0 then q
      else
        let q2 := q.set (ind - 1).toNat (optPairUpdate M tp prev_tc tc)
        if tc.atpeak then q2 else tpOptLoop M tp len fuel (x + 1) q2
    | _, _ => q

/-- The walk of tpRunOptimization reaches and processes (writes) index j.
This re-traces exactly the loop's control decisions: an iteration processes
index ind - 1 whenever both queue items exist, the predecessor is
tangent-terminated and has not started; it continues to the next pair only
when the current successor's atpeak flag is clear, within the same fuel
budget and over the same intermediate queue states as tpOptLoop. -/
def tpOptProcessed (M : MathModel) (tp : TP_STRUCT) (len : Int) :
    Nat → Nat → List TC_STRUCT → Nat → Prop
  | 0, _, _, _ => False
  | Nat.succ fuel, x, q, j =>
    let ind : Int := len - (x : Int)
    match tcqItemL q ind, tcqItemL q (ind - 1) with
    | some tc, some prev_tc =>
      if prev_tc.term_cond ≠ TC_TERM_COND_TANGENT then False
      else if prev_tc.progress > 0 then False
      else
        j = (ind - 1).toNat ∨
          (tc.atpeak = false ∧
            tpOptProcessed M tp len fuel (x + 1)
              (q.set (ind - 1).toNat (optPairUpdate M tp prev_tc tc)) j)
    | _, _ => False

/-- tp.c tpRunOptimization: rising-tide backward pass over the queued
segments, bounded by TP_LOOKAHEAD_DEPTH. -/
def tpRunOptimization (M : MathModel) (tp : TP_STRUCT) : TP_STRUCT :=
  let len := tcqLen tp.queue
  if len < 2 then tp
  else { tp with queue := { tp.queue with
    elems := tpOptLoop M tp len (TP_LOOKAHEAD_DEPTH - 1) 1 tp.queue.elems } }

/-- tp.c tpHandleBlendArc: decide between building a blend arc (which the
source always aborts, see tpCreateBlendArc), promoting the previous segment
to tangent termination, or falling back to a parabolic blend.  The returned
triple is (status, planner, the possibly-updated new segment). -/
def tpHandleBlendArc (M : MathModel) (st : EmcmotStatus) (tp : TP_STRUCT)
    (tc : TC_STRUCT) (e : EmcPose) : Int × TP_STRUCT × TC_STRUCT :=
  match tcqLast tp.queue with
  | none => (-1, tp, tc)
  | some prev_tc =>
    if prev_tc.progress > 0 then (-1, tp, tc)
    else
      let need_arc := tpCheckNeedBlendArc M tp prev_tc tc tp.cycleTime
      if need_arc = 0 then
        let cres := tpCreateBlendArc M tp st prev_tc tc defaultTC
        if cres.1 ≠ 0 then (-1, tp, tc)
        else
          let blend_tc := cres.2
          let conn := tcConnectBlendArc M prev_tc tc blend_tc
          let prevIdx := tp.queue.elems.length - 1
          let tp1 := { tp with queue := { tp.queue with
            elems := tp.queue.elems.set prevIdx conn.2.1 } }
          let tc2 := conn.2.2
          if conn.1 = 1 then
            let pb := tcqPopBack tp1.queue
            if pb.1 ≠ 0 then (-1, tp1, tc2)
            else
              let tp2 := { tp1 with queue := pb.2 }
              let blend2 := tpClipVelocityLimit tp2 blend_tc
              let ares := tpAddSegmentToQueue tp2 blend2 e
              (0, tpRunOptimization M ares.2, tc2)
          else
            let tp2 := { tp1 with queue := { tp1.queue with
              elems := tp1.queue.elems.set prevIdx (tpClipVelocityLimit tp1 conn.2.1) } }
            let blend2 := tpClipVelocityLimit tp2 blend_tc
            let ares := tpAddSegmentToQueue tp2 blend2 e
            (0, tpRunOptimization M ares.2, tc2)
      else if need_arc = 1 then
        let prev2 := { prev_tc with term_cond := TC_TERM_COND_TANGENT }
        let tp1 := { tp with queue := { tp.queue with
          elems := tp.queue.elems.set (tp.queue.elems.length - 1) prev2 } }
        (0, tp1, tc)
      else (-1, tp, tc)

/-- The TC built by tp.c tpAddLine before blending, clipping and queueing. -/
def tpAddLineTC (M : MathModel) (g : Globals) (tp : TP_STRUCT) (end_ : EmcPose)
    (type : Int) (vel ini_maxvel acc : ℚ) (enables : Int) (atspeed : Bool)
    (indexrotary : Int) : TC_STRUCT :=
  let line_xyz := pmCartLineInit M (xyzOf tp.goalPos) (xyzOf end_)
  let line_uvw := pmCartLineInit M (uvwOf tp.goalPos) (uvwOf end_)
  let line_abc := pmCartLineInit M (abcOf tp.goalPos) (abcOf end_)
  let tc0 := tpInitializeNewSegment tp vel ini_maxvel acc enables
  let target := if ¬ line_xyz.tmag_zero then line_xyz.tmag
    else if ¬ line_uvw.tmag_zero then line_uvw.tmag
    else line_abc.tmag
  { tc0 with
    target := target, atspeed := atspeed,
    coords_line := { xyz := line_xyz, uvw := line_uvw, abc := line_abc },
    motion_type := TC_LINEAR, canon_motion_type := type,
    term_cond := tp.termCond, tolerance := tp.tolerance,
    synchronized := tp.synchronized, uu_per_rev := tp.uu_per_rev,
    indexrotary := indexrotary,
    syncdio := if g.syncdio.anychanged ≠ 0 then g.syncdio
               else { tc0.syncdio with anychanged := 0 } }

/-- tp.c tpAddLine: build the line segment, run the blend-arc handler (which
may retouch the queued predecessor), clip to the sample-rate velocity bound,
and append. -/
def tpAddLine (M : MathModel) (g : Globals) (tp : TP_STRUCT) (end_ : EmcPose)
    (type : Int) (vel ini_maxvel acc : ℚ) (enables : Int) (atspeed : Bool)
    (indexrotary : Int) : Int × TP_STRUCT × Globals :=
  if tpErrorCheck tp < 0 then (-1, tp, g)
  else
    let tc := tpAddLineTC M g tp end_ type vel ini_maxvel acc enables atspeed indexrotary
    let g1 := if g.syncdio.anychanged ≠ 0 then tpClearDIOsG g else g
    let h := tpHandleBlendArc M g1.status tp tc end_
    let tc2 := tpClipVelocityLimit h.2.1 h.2.2
    let ares := tpAddSegmentToQueue h.2.1 tc2 end_
    (ares.1, ares.2, g1)

/-- The TC built by tp.c tpAddCircle, including the inline sample-rate cap
the source applies before the tpClipVelocityLimit call. -/
def tpAddCircleTC (M : MathModel) (g : Globals) (tp : TP_STRUCT) (end_ : EmcPose)
    (center normal : PmCartesian) (turn : Int) (type : Int)
    (vel ini_maxvel acc : ℚ) (enables : Int) (atspeed : Bool) : TC_STRUCT :=
  let circle := pmCircleInit M (xyzOf tp.goalPos) (xyzOf end_) center normal turn
  let line_uvw := pmCartLineInit M (uvwOf tp.goalPos) (uvwOf end_)
  let line_abc := pmCartLineInit M (abcOf tp.goalPos) (abcOf end_)
  let helix_z_component := pmCartMag M circle.rHelix
  let helix_length := M.sqrt ((circle.angle * circle.radius) ^ 2 + helix_z_component ^ 2)
  let tc0 := tpInitializeNewSegment tp vel ini_maxvel acc enables
  let tc1 := { tc0 with
    target := helix_length, atspeed := atspeed,
    coords_circle := { xyz := circle, uvw := line_uvw, abc := line_abc },
    motion_type := TC_CIRCULAR, canon_motion_type := type,
    term_cond := tp.termCond, tolerance := tp.tolerance,
    synchronized := tp.synchronized, uu_per_rev := tp.uu_per_rev,
    indexrotary := -1 }
  let sample_maxvel := 1 / 2 * tc1.target / tp.cycleTime
  let tc2 := { tc1 with maxvel := min sample_maxvel tc1.maxvel }
  { tc2 with
    syncdio := if g.syncdio.anychanged ≠ 0 then g.syncdio
               else { tc2.syncdio with anychanged := 0 } }

/-- tp.c tpAddCircle: build a circular/helical segment, apply the sample-rate
velocity cap twice as the source does (once inline, once via
tpClipVelocityLimit), and append. -/
def tpAddCircle (M : MathModel) (g : Globals) (tp : TP_STRUCT) (end_ : EmcPose)
    (center normal : PmCartesian) (turn : Int) (type : Int)
    (vel ini_maxvel acc : ℚ) (enables : Int) (atspeed : Bool) :
    Int × TP_STRUCT × Globals :=
  if tpErrorCheck tp < 0 then (-1, tp, g)
  else
    let tc3 := tpAddCircleTC M g tp end_ center normal turn type vel ini_maxvel acc
      enables atspeed
    let g1 := if g.syncdio.anychanged ≠ 0 then tpClearDIOsG g else g
    let tc4 := tpClipVelocityLimit tp tc3
    let ares := tpAddSegmentToQueue tp tc4 end_
    (ares.1, ares.2, g1)

/-- The blending bookkeeping at the head of tp.c tcRunCycle: outside a blend
the current velocity is recorded as vel_at_blend_start. -/
def tcRunCyclePre (tc : TC_STRUCT) : TC_STRUCT :=
  if tc.blending then tc else { tc with vel_at_blend_start := tc.currentvel }

/-- The requested velocity as tcRunCycle clamps it (feed override applied,
then capped by maxvel). -/
def tcReqVelClamped (tp : TP_STRUCT) (st : EmcmotStatus) (tc : TC_STRUCT) : ℚ :=
  let req_vel := tpGetReqVel tp st tc
  if req_vel > tc.maxvel then tc.maxvel else req_vel

/-- The final velocity as tcRunCycle clamps it (feed override applied, capped
by the clamped requested velocity, forced to 0 while pausing). -/
def tcFinalVelClamped (tp : TP_STRUCT) (st : EmcmotStatus) (tc : TC_STRUCT) : ℚ :=
  let final_vel := tpGetFinalVel tp st tc
  let final_vel1 := if final_vel > tcReqVelClamped tp st tc
    then tcReqVelClamped tp st tc else final_vel
  if tp.pausing then 0 else final_vel1

/-- tcRunCycle's maxnewvel: the velocity solving the trapezoid equation with
a final-velocity term, or 0 when the discriminant is negative. -/
def tcMaxNewVel (M : MathModel) (tp : TP_STRUCT) (st : EmcmotStatus) (tc : TC_STRUCT) : ℚ :=
  let final_vel := tcFinalVelClamped tp st tc
  let maxaccel := tpGetScaledAccel tp tc
  let delta_pos := tc.target - tc.progress
  let discr := final_vel ^ 2 +
    maxaccel * (2 * delta_pos - tc.currentvel * tc.cycle_time) +
    (maxaccel * tc.cycle_time / 2) ^ 2
  if discr < 0 then 0 else -(1 / 2) * maxaccel * tc.cycle_time + M.sqrt discr

/-- tcRunCycle's newvel right after the clamp by the requested velocity and
before the sign test. -/
def tcNewVelRaw (M : MathModel) (tp : TP_STRUCT) (st : EmcmotStatus) (tc : TC_STRUCT) : ℚ :=
  let newvel := tcMaxNewVel M tp st tc
  if newvel > tcReqVelClamped tp st tc then tcReqVelClamped tp st tc else newvel

/-- The result of one profiler step: the updated segment, the velocity
out-parameter and the on_final_decel flag. -/
structure TcCycleOut where
  tc : TC_STRUCT
  v : ℚ
  on_final_decel : Bool
deriving DecidableEq

/-- tp.c tcRunCycle: one trapezoidal profiler step over a segment.  When the
computed velocity is negative it is zeroed and, unless the segment is
tangent-terminated and already at or past its target, progress snaps to the
target; otherwise the velocity is capped by the machine limit, acceleration
is saturated and progress integrates trapezoidally. -/
def tcRunCycle (M : MathModel) (tp : TP_STRUCT) (st : EmcmotStatus)
    (tc0 : TC_STRUCT) : TcCycleOut :=
  let tc := tcRunCyclePre tc0
  let maxnewvel := tcMaxNewVel M tp st tc
  let newvel := tcNewVelRaw M tp st tc
  if newvel < 0 then
    let tc2 := if ¬ (tc.term_cond = TC_TERM_COND_TANGENT) ∨ tc.progress < tc.target
      then { tc with progress := tc.target } else tc
    { tc := tc2, v := 0, on_final_decel := |maxnewvel - 0| < 1 / 1000 }
  else
    let is_pure_rotary := tc.motion_type = TC_LINEAR ∧
      tc.coords_line.xyz.tmag_zero = true ∧ tc.coords_line.uvw.tmag_zero = true
    let newvel1 := if ¬ is_pure_rotary ∧ tc.synchronized ≠ TC_SYNC_POSITION ∧
        newvel > tp.vLimit then tp.vLimit else newvel
    let newaccel := saturate ((newvel1 - tc.currentvel) / tc.cycle_time)
      (tpGetScaledAccel tp tc)
    let newvel2 := tc.currentvel + newaccel * tc.cycle_time
    let tc2 := { tc with
      progress := tc.progress + (newvel2 + tc.currentvel) * (1 / 2) * tc.cycle_time,
      currentvel := newvel2 }
    { tc := tc2, v := newvel2, on_final_decel := |maxnewvel - newvel2| < 1 / 1000 }

/-! ## Concrete states used by closed witnesses and counterexamples -/

def baseStatus : EmcmotStatus :=
  { net_feed_scale := 1, spindleSync := 0, current_vel := 0, requested_vel := 0,
    distance_to_go := 0, dtg := zeroEmcPose }

def baseGlobals : Globals := { status := baseStatus, syncdio := zeroSyncDio }

/-- A planner in a plausible post-configuration state (1 ms cycle, empty
8-slot queue, zero pose). -/
def baseTP : TP_STRUCT :=
  { queue := { size := 8, elems := [] }, queueSize := 8, cycleTime := 1 / 1000,
    currentPos := zeroEmcPose, goalPos := zeroEmcPose, nextId := 0, execId := 0,
    motionType := 0, termCond := TC_TERM_COND_PARABOLIC, tolerance := 0,
    done := 1, depth := 0, activeDepth := 0, aborting := false, pausing := false,
    vLimit := 10000, vScale := 1, aMax := 1000, vMax := 100, ini_maxvel := 10000,
    wMax := 0, wDotMax := 0,
    spindle := { offset := 0, revs := 0, waiting_for_index := -1, waiting_for_atspeed := -1 },
    synchronized := 0, uu_per_rev := 0, velocity_mode := false }

def mkPose (x y z : ℚ) : EmcPose := { zeroEmcPose with tran := ⟨x, y, z⟩ }

/-- C2: a synchronised planner about to receive a rigid tap. -/
def tpC2 : TP_STRUCT := { baseTP with synchronized := 1, uu_per_rev := 1 / 10 }

def eC2 : EmcPose := mkPose 3 4 0

/-- C3: a tangent-terminated segment whose profiler step computes a negative
velocity (discriminant 0, newvel = -1) while progress is still short of the
target. -/
def tcC3 : TC_STRUCT :=
  { defaultTC with
    term_cond := TC_TERM_COND_TANGENT, target := 1 / 4, progress := 0,
    currentvel := 1, finalvel := 0, reqvel := 10, maxvel := 10, maxaccel := 2,
    accel_scale := 1, cycle_time := 1, motion_type := TC_LINEAR,
    canon_motion_type := EMC_MOTION_TYPE_TRAVERSE, blending := false }

/-- C4: a tangent predecessor whose own maxvel (1) is below the successor's
(2), with vs hitting the successor's maxvel exactly: vs = sqrt(2*2*1) = 2. -/
def pC4 : TC_STRUCT :=
  { defaultTC with
    term_cond := TC_TERM_COND_TANGENT, progress := 0, maxvel := 1,
    finalvel := 0, atpeak := false, motion_type := TC_LINEAR }

def tC4 : TC_STRUCT :=
  { defaultTC with
    term_cond := TC_TERM_COND_STOP, finalvel := 0, maxaccel := 2,
    accel_scale := 1, target := 1, maxvel := 2, atpeak := false,
    motion_type := TC_LINEAR }

def tpC4 : TP_STRUCT := { baseTP with queue := { size := 8, elems := [pC4, tC4] } }

/-- C4 witness side state: a lone non-tangent queued segment the optimiser
must leave alone. -/
def sC4 : TC_STRUCT :=
  { defaultTC with
    term_cond := TC_TERM_COND_PARABOLIC, finalvel := 0 }

def tpC4b : TP_STRUCT := { baseTP with queue := { size := 8, elems := [sC4, tC4] } }

/-- C5: a queued predecessor line with Stop termination, collinear with the
incoming line (unit vectors both (1,0,0), so omega = acos 1 = 0). -/
def prevC5 : TC_STRUCT :=
  { defaultTC with
    motion_type := TC_LINEAR, term_cond := TC_TERM_COND_STOP,
    progress := 0,
    coords_line := { zeroLineCoords with
      xyz := { zeroLine with uVec := ⟨1, 0, 0⟩, tmag := 5 } } }

def tcC5 : TC_STRUCT :=
  { defaultTC with
    motion_type := TC_LINEAR, term_cond := TC_TERM_COND_PARABOLIC,
    coords_line := { zeroLineCoords with
      xyz := { zeroLine with uVec := ⟨1, 0, 0⟩, tmag := 7 } } }

def tpC5 : TP_STRUCT := { baseTP with queue := { size := 8, elems := [prevC5] } }

/-- C6: a Traverse segment inside a pausing planner: the first case wins. -/
def tpC6 : TP_STRUCT := { baseTP with pausing := true }

def tcC6 : TC_STRUCT := { defaultTC with canon_motion_type := EMC_MOTION_TYPE_TRAVERSE }

/-- C7: a synchronised planner for a successful rigid tap. -/
def tpC7 : TP_STRUCT := { baseTP with synchronized := 1, uu_per_rev := 1 / 2 }

def eC7 : EmcPose := mkPose 0 0 3

/-- C8: a planner whose one-slot queue is already full. -/
def tpC8 : TP_STRUCT :=
  { baseTP with queue := { size := 1, elems := [defaultTC] } }

/-! ## Helper lemmas -/

set_option maxHeartbeats 1600000 in
theorem tpCreateBlendArc_fail (M : MathModel) (tp : TP_STRUCT) (st : EmcmotStatus)
    (prev_tc tc blend_tc : TC_STRUCT) :
    (tpCreateBlendArc M tp st prev_tc tc blend_tc).1 = -1 := by
  unfold tpCreateBlendArc
  cases tpFindIntersectionAngle M prev_tc.coords_line.xyz.uVec tc.coords_line.xyz.uVec with
  | none => rfl
  | some theta =>
    simp only []
    split_ifs <;> rfl

theorem tpHandleBlendArc_cases (M : MathModel) (st : EmcmotStatus) (tp : TP_STRUCT)
    (tc : TC_STRUCT) (e : EmcPose) :
    (tpHandleBlendArc M st tp tc e).2.2 = tc ∧
    ((tpHandleBlendArc M st tp tc e).2.1 = tp ∨
      ∃ prev, tp.queue.elems.getLast? = some prev ∧
        (tpHandleBlendArc M st tp tc e).2.1 = { tp with queue := { tp.queue with
          elems := tp.queue.elems.set (tp.queue.elems.length - 1)
            { prev with term_cond := TC_TERM_COND_TANGENT } } }) := by
  unfold tpHandleBlendArc
  cases hlast : tcqLast tp.queue with
  | none => exact ⟨rfl, Or.inl rfl⟩
  | some prev =>
    by_cases hp : prev.progress > 0
    · simp [hp]
    · by_cases h0 : tpCheckNeedBlendArc M tp prev tc tp.cycleTime = 0
      · have hfail := tpCreateBlendArc_fail M tp st prev tc defaultTC
        simp [hp, h0, hfail]
      · by_cases h1 : tpCheckNeedBlendArc M tp prev tc tp.cycleTime = 1
        · refine ⟨?_, Or.inr ⟨prev, ?_, ?_⟩⟩ <;>
            simp [hp, h0, h1, ← hlast, tcqLast]
        · simp [hp, h0, h1]

theorem list_map_set_congr {α β : Type} (f : α → β) (l : List α) (i : Nat) (x y : α)
    (hy : l.get? i = some y) (hf : f x = f y) : (l.set i x).map f = l.map f := by
  apply List.ext_get?
  intro n
  rcases eq_or_ne i n with rfl | hne
  · rw [List.get?_map, List.get?_map, List.get?_set_eq, hy]
    simp [hf]
  · rw [List.get?_map, List.get?_map, List.get?_set_ne _ _ hne]

theorem getLast?_as_get? {α : Type} (l : List α) (x : α) (h : l.getLast? = some x) :
    l.get? (l.length - 1) = some x := by
  rw [List.get?_eq_getElem?, ← List.getLast?_eq_getElem?]
  exact h

/-- Everything the blend handler leaves untouched: every planner field other
than the queue's entries, the queue's length, and each entry's motion type. -/
theorem tpHandleBlendArc_fields (M : MathModel) (st : EmcmotStatus) (tp : TP_STRUCT)
    (tc : TC_STRUCT) (e : EmcPose) :
    (tpHandleBlendArc M st tp tc e).2.1.cycleTime = tp.cycleTime ∧
    (tpHandleBlendArc M st tp tc e).2.1.goalPos = tp.goalPos ∧
    (tpHandleBlendArc M st tp tc e).2.1.done = tp.done ∧
    (tpHandleBlendArc M st tp tc e).2.1.depth = tp.depth ∧
    (tpHandleBlendArc M st tp tc e).2.1.nextId = tp.nextId ∧
    (tpHandleBlendArc M st tp tc e).2.1.queue.size = tp.queue.size ∧
    (tpHandleBlendArc M st tp tc e).2.1.queue.elems.map TC_STRUCT.motion_type =
      tp.queue.elems.map TC_STRUCT.motion_type := by
  obtain ⟨-, h | ⟨prev, hprev, h⟩⟩ := tpHandleBlendArc_cases M st tp tc e
  · rw [h]; exact ⟨rfl, rfl, rfl, rfl, rfl, rfl, rfl⟩
  · rw [h]
    refine ⟨rfl, rfl, rfl, rfl, rfl, rfl, ?_⟩
    exact list_map_set_congr TC_STRUCT.motion_type tp.queue.elems
      (tp.queue.elems.length - 1) _ prev (getLast?_as_get? _ _ hprev) rfl

theorem tpHandleBlendArc_len (M : MathModel) (st : EmcmotStatus) (tp : TP_STRUCT)
    (tc : TC_STRUCT) (e : EmcPose) :
    (tpHandleBlendArc M st tp tc e).2.1.queue.elems.length = tp.queue.elems.length := by
  have h := (tpHandleBlendArc_fields M st tp tc e).2.2.2.2.2.2
  have := congrArg List.length h
  simpa using this

theorem tpAddSegmentToQueue_cases (tp : TP_STRUCT) (tc : TC_STRUCT) (e : EmcPose) :
    (tcqFull tp.queue ∧ tpAddSegmentToQueue tp tc e = (-1, tp)) ∨
    (¬ tcqFull tp.queue ∧ tpAddSegmentToQueue tp tc e =
      (0, { tp with
        queue := { tp.queue with elems := tp.queue.elems ++ [{ tc with id := tp.nextId }] },
        goalPos := e, done := 0,
        depth := ((tp.queue.elems.length + 1 : Nat) : Int),
        nextId := tp.nextId + 1 })) := by
  by_cases hfull : tcqFull tp.queue
  · left
    refine ⟨hfull, ?_⟩
    unfold tpAddSegmentToQueue tcqPut
    simp [tcqFull] at hfull
    simp [hfull]
  · right
    refine ⟨hfull, ?_⟩
    unfold tpAddSegmentToQueue tcqPut
    simp [tcqFull] at hfull
    simp [hfull, not_le.mpr hfull, tcqLen]

theorem tpAddLine_shape (M : MathModel) (g : Globals) (tp : TP_STRUCT) (e : EmcPose)
    (type : Int) (vel ini_maxvel acc : ℚ) (enables : Int) (atspeed : Bool)
    (indexrotary : Int) :
    (tp.aborting = true ∧
      tpAddLine M g tp e type vel ini_maxvel acc enables atspeed indexrotary = (-1, tp, g)) ∨
    (tp.aborting = false ∧
      tpAddLine M g tp e type vel ini_maxvel acc enables atspeed indexrotary =
        ((tpAddSegmentToQueue
            (tpHandleBlendArc M (if g.syncdio.anychanged ≠ 0 then tpClearDIOsG g else g).status
              tp (tpAddLineTC M g tp e type vel ini_maxvel acc enables atspeed indexrotary) e).2.1
            (tpClipVelocityLimit
              (tpHandleBlendArc M (if g.syncdio.anychanged ≠ 0 then tpClearDIOsG g else g).status
                tp (tpAddLineTC M g tp e type vel ini_maxvel acc enables atspeed indexrotary) e).2.1
              (tpHandleBlendArc M (if g.syncdio.anychanged ≠ 0 then tpClearDIOsG g else g).status
                tp (tpAddLineTC M g tp e type vel ini_maxvel acc enables atspeed indexrotary) e).2.2)
            e).1,
         (tpAddSegmentToQueue
            (tpHandleBlendArc M (if g.syncdio.anychanged ≠ 0 then tpClearDIOsG g else g).status
              tp (tpAddLineTC M g tp e type vel ini_maxvel acc enables atspeed indexrotary) e).2.1
            (tpClipVelocityLimit
              (tpHandleBlendArc M (if g.syncdio.anychanged ≠ 0 then tpClearDIOsG g else g).status
                tp (tpAddLineTC M g tp e type vel ini_maxvel acc enables atspeed indexrotary) e).2.1
              (tpHandleBlendArc M (if g.syncdio.anychanged ≠ 0 then tpClearDIOsG g else g).status
                tp (tpAddLineTC M g tp e type vel ini_maxvel acc enables atspeed indexrotary) e).2.2)
            e).2,
         if g.syncdio.anychanged ≠ 0 then tpClearDIOsG g else g)) := by
  by_cases hab : tp.aborting
  · left
    refine ⟨hab, ?_⟩
    unfold tpAddLine tpErrorCheck
    simp [hab]
  · right
    refine ⟨by simpa using hab, ?_⟩
    unfold tpAddLine tpErrorCheck
    simp [hab]

theorem tpClipVelocityLimit_motion (tp : TP_STRUCT) (tc : TC_STRUCT) :
    (tpClipVelocityLimit tp tc).motion_type = tc.motion_type := by
  unfold tpClipVelocityLimit
  dsimp only
  split <;> rfl

theorem tpClipVelocityLimit_target (tp : TP_STRUCT) (tc : TC_STRUCT) :
    (tpClipVelocityLimit tp tc).target = tc.target := by
  unfold tpClipVelocityLimit
  dsimp only
  split <;> rfl

theorem tpClipVelocityLimit_le (tp : TP_STRUCT) (tc : TC_STRUCT) :
    (tpClipVelocityLimit tp tc).maxvel ≤ 1 / 2 * tc.target / tp.cycleTime := by
  unfold tpClipVelocityLimit
  dsimp only
  split_ifs with h
  · exact le_refl _
  · exact le_of_not_lt (by simpa using h)

theorem tpAddLineTC_motion (M : MathModel) (g : Globals) (tp : TP_STRUCT) (e : EmcPose)
    (type : Int) (vel ini_maxvel acc : ℚ) (enables : Int) (atspeed : Bool)
    (indexrotary : Int) :
    (tpAddLineTC M g tp e type vel ini_maxvel acc enables atspeed indexrotary).motion_type
      = TC_LINEAR := rfl

/-- C1: whenever the blend-arc builder tpCreateBlendArc is invoked it returns
-1 before constructing the arc (the unconditional failure placed ahead of the
construction code), and consequently no call to tpAddLine ever splices a
blend-arc Circle segment into the queue: the queue's motion-type trace is
either unchanged (rejected or failed append) or extended by exactly one
TC_LINEAR entry, so the handler's only effects are fall-backs. -/
theorem c1_blend_arc_creation_always_fails (M : MathModel) (g : Globals)
    (tp : TP_STRUCT) (st : EmcmotStatus) (prev_tc tc blend_tc : TC_STRUCT)
    (e : EmcPose) (type : Int) (vel ini_maxvel acc : ℚ) (enables : Int)
    (atspeed : Bool) (indexrotary : Int) :
    (tpCreateBlendArc M tp st prev_tc tc blend_tc).1 = -1 ∧
    ((tpAddLine M g tp e type vel ini_maxvel acc enables atspeed
        indexrotary).2.1.queue.elems.map TC_STRUCT.motion_type =
          tp.queue.elems.map TC_STRUCT.motion_type ∨
     (tpAddLine M g tp e type vel ini_maxvel acc enables atspeed
        indexrotary).2.1.queue.elems.map TC_STRUCT.motion_type =
          tp.queue.elems.map TC_STRUCT.motion_type ++ [TC_LINEAR]) := by
  refine ⟨tpCreateBlendArc_fail M tp st prev_tc tc blend_tc, ?_⟩
  rcases tpAddLine_shape M g tp e type vel ini_maxvel acc enables atspeed indexrotary with
    ⟨-, hres⟩ | ⟨-, hres⟩
  · rw [hres]
    exact Or.inl rfl
  · rw [hres]
    set g1 := if g.syncdio.anychanged ≠ 0 then tpClearDIOsG g else g with hg1
    set tcL := tpAddLineTC M g tp e type vel ini_maxvel acc enables atspeed indexrotary
      with htcL
    set h := tpHandleBlendArc M g1.status tp tcL e with hh
    have hmap := (tpHandleBlendArc_fields M g1.status tp tcL e).2.2.2.2.2.2
    have htc2 : (tpClipVelocityLimit h.2.1 h.2.2).motion_type = TC_LINEAR := by
      rw [tpClipVelocityLimit_motion, (tpHandleBlendArc_cases M g1.status tp tcL e).1]
      exact tpAddLineTC_motion M g tp e type vel ini_maxvel acc enables atspeed indexrotary
    rcases tpAddSegmentToQueue_cases h.2.1 (tpClipVelocityLimit h.2.1 h.2.2) e with
      ⟨-, hq⟩ | ⟨-, hq⟩
    · rw [hq]
      left
      exact hmap
    · rw [hq]
      right
      simp only [List.map_append, List.map_cons, List.map_nil]
      rw [show ({ tpClipVelocityLimit h.2.1 h.2.2 with
            id := h.2.1.nextId } : TC_STRUCT).motion_type =
          (tpClipVelocityLimit h.2.1 h.2.2).motion_type from rfl, htc2, hmap]

/-- C6: the feed override equals 1 when the segment's canonical kind is
Traverse or its sync mode is Position; otherwise it equals 0 when the planner
is pausing or aborting; otherwise it equals the planner's net feed scale —
the first matching case, in that order, decides. -/
theorem c6_feed_override_policy (tp : TP_STRUCT) (st : EmcmotStatus) (tc : TC_STRUCT) :
    ((tc.canon_motion_type = EMC_MOTION_TYPE_TRAVERSE ∨
        tc.synchronized = TC_SYNC_POSITION) → tpGetFeedOverride tp st tc = 1) ∧
    (¬ (tc.canon_motion_type = EMC_MOTION_TYPE_TRAVERSE ∨
        tc.synchronized = TC_SYNC_POSITION) → (tp.pausing ∨ tp.aborting) →
      tpGetFeedOverride tp st tc = 0) ∧
    (¬ (tc.canon_motion_type = EMC_MOTION_TYPE_TRAVERSE ∨
        tc.synchronized = TC_SYNC_POSITION) → ¬ (tp.pausing ∨ tp.aborting) →
      tpGetFeedOverride tp st tc = st.net_feed_scale) := by
  unfold tpGetFeedOverride
  refine ⟨fun h => ?_, fun h1 h2 => ?_, fun h1 h2 => ?_⟩
  · simp [h]
  · simp [h1, h2]
  · simp [h1, h2]

/-- C6 witness: a Traverse segment inside a pausing planner still gets
override 1 — the first case takes priority over the pausing case. -/
theorem c6_feed_override_policy_witness :
    (tcC6.canon_motion_type = EMC_MOTION_TYPE_TRAVERSE ∨
      tcC6.synchronized = TC_SYNC_POSITION) ∧
    (tpC6.pausing ∨ tpC6.aborting) ∧
    tpGetFeedOverride tpC6 baseStatus tcC6 = 1 :=
  ⟨Or.inl (by decide), Or.inl (by decide),
    (c6_feed_override_policy tpC6 baseStatus tcC6).1 (Or.inl (by decide))⟩

/-- C9: for every planner and pose, Clear followed by SetPos(p) yields
GetPos() = p and IsDone() true (done = 1). -/
theorem c9_clear_setpos_roundtrip (tp : TP_STRUCT) (g : Globals) (p : EmcPose) :
    (tpGetPos (tpSetPos (tpClear tp g).2.1 p).2).2 = p ∧
    tpIsDone (tpSetPos (tpClear tp g).2.1 p).2 = 1 := ⟨rfl, rfl⟩

/-- C10: tpSetVlimit accepts every negative argument, returning 0 (success)
and storing vLimit = 0, while tpSetCycleTime, tpSetVmax and tpSetAmax reject
non-positive inputs with -1 and no state change. -/
theorem c10_vlimit_negative_accepted (tp : TP_STRUCT) (vl s a vm im : ℚ)
    (hvl : vl < 0) (hs : s ≤ 0) (ha : a ≤ 0) (hvm : vm ≤ 0 ∨ im ≤ 0) :
    tpSetVlimit tp vl = (0, { tp with vLimit := 0 }) ∧
    tpSetCycleTime tp s = (-1, tp) ∧
    tpSetAmax tp a = (-1, tp) ∧
    tpSetVmax tp vm im = (-1, tp) := by
  refine ⟨?_, ?_, ?_, ?_⟩
  · unfold tpSetVlimit
    simp [hvl]
  · unfold tpSetCycleTime
    simp [hs]
  · unfold tpSetAmax
    simp [ha]
  · unfold tpSetVmax
    simp [hvm]

/-- C10 witness at vl = -1, s = 0, a = -2, vm = 0. -/
theorem c10_vlimit_negative_accepted_witness :
    ((-1 : ℚ) < 0 ∧ (0 : ℚ) ≤ 0 ∧ (-2 : ℚ) ≤ 0 ∧ ((0 : ℚ) ≤ 0 ∨ (1 : ℚ) ≤ 0)) ∧
    (tpSetVlimit baseTP (-1) = (0, { baseTP with vLimit := 0 }) ∧
     tpSetCycleTime baseTP 0 = (-1, baseTP) ∧
     tpSetAmax baseTP (-2) = (-1, baseTP) ∧
     tpSetVmax baseTP 0 1 = (-1, baseTP)) :=
  ⟨⟨by norm_num, le_refl 0, by norm_num, Or.inl (le_refl 0)⟩,
    c10_vlimit_negative_accepted baseTP (-1) 0 (-2) 0 1 (by norm_num) (le_refl 0)
      (by norm_num) (Or.inl (le_refl 0))⟩

/-- C8: when an Add call finds the queue full, it returns a negative code and
the planner's goal pose, done flag, depth and next-id counter are unchanged:
the common append tpAddSegmentToQueue is atomic on failure, and each of
tpAddLine, tpAddCircle and tpAddRigidTap propagates the failure with those
fields intact. -/
theorem c8_queue_full_atomic (M : MathModel) (g : Globals) (tp : TP_STRUCT)
    (tc : TC_STRUCT) (e : EmcPose) (type : Int) (vel ini_maxvel acc : ℚ)
    (enables : Int) (atspeed : Bool) (indexrotary : Int)
    (center normal : PmCartesian) (turn : Int)
    (hfull : tcqFull tp.queue) :
    tpAddSegmentToQueue tp tc e = (-1, tp) ∧
    ((tpAddLine M g tp e type vel ini_maxvel acc enables atspeed indexrotary).1 = -1 ∧
      (tpAddLine M g tp e type vel ini_maxvel acc enables atspeed
        indexrotary).2.1.goalPos = tp.goalPos ∧
      (tpAddLine M g tp e type vel ini_maxvel acc enables atspeed
        indexrotary).2.1.done = tp.done ∧
      (tpAddLine M g tp e type vel ini_maxvel acc enables atspeed
        indexrotary).2.1.depth = tp.depth ∧
      (tpAddLine M g tp e type vel ini_maxvel acc enables atspeed
        indexrotary).2.1.nextId = tp.nextId) ∧
    ((tpAddCircle M g tp e center normal turn type vel ini_maxvel acc enables
        atspeed).1 = -1 ∧
      (tpAddCircle M g tp e center normal turn type vel ini_maxvel acc enables
        atspeed).2.1 = tp) ∧
    ((tpAddRigidTap M g tp e vel ini_maxvel acc enables).1 = -1 ∧
      (tpAddRigidTap M g tp e vel ini_maxvel acc enables).2.1 = tp) := by
  have hseg : ∀ (tcx : TC_STRUCT), tpAddSegmentToQueue tp tcx e = (-1, tp) := by
    intro tcx
    rcases tpAddSegmentToQueue_cases tp tcx e with ⟨-, hq⟩ | ⟨hnf, -⟩
    · exact hq
    · exact absurd hfull hnf
  refine ⟨hseg tc, ?_, ?_, ?_⟩
  · rcases tpAddLine_shape M g tp e type vel ini_maxvel acc enables atspeed indexrotary with
      ⟨-, hres⟩ | ⟨-, hres⟩
    · rw [hres]
      exact ⟨rfl, rfl, rfl, rfl, rfl⟩
    · rw [hres]
      set g1 := if g.syncdio.anychanged ≠ 0 then tpClearDIOsG g else g with hg1
      set tcL := tpAddLineTC M g tp e type vel ini_maxvel acc enables atspeed indexrotary
        with htcL
      have hf := tpHandleBlendArc_fields M g1.status tp tcL e
      have hfull1 : tcqFull (tpHandleBlendArc M g1.status tp tcL e).2.1.queue := by
        unfold tcqFull
        rw [hf.2.2.2.2.2.1, tpHandleBlendArc_len M g1.status tp tcL e]
        exact hfull
      rcases tpAddSegmentToQueue_cases (tpHandleBlendArc M g1.status tp tcL e).2.1
          (tpClipVelocityLimit (tpHandleBlendArc M g1.status tp tcL e).2.1
            (tpHandleBlendArc M g1.status tp tcL e).2.2) e with ⟨-, hq⟩ | ⟨hnf, -⟩
      · rw [hq]
        exact ⟨rfl, hf.2.1, hf.2.2.1, hf.2.2.2.1, hf.2.2.2.2.1⟩
      · exact absurd hfull1 hnf
  · unfold tpAddCircle
    by_cases hab : tp.aborting
    · simp [tpErrorCheck, hab]
    · simp only [tpErrorCheck, hab, if_false, if_neg]
      rw [hseg]
      exact ⟨rfl, rfl⟩
  · unfold tpAddRigidTap
    by_cases hab : tp.aborting
    · simp [tpErrorCheck, hab]
    · by_cases hsync : tp.synchronized = 0
      · simp [tpErrorCheck, hab, hsync]
      · simp only [tpErrorCheck, hab, hsync, if_false, if_neg]
        rw [hseg]
        exact ⟨rfl, rfl⟩

/-- C8 witness: a full one-slot queue rejects the append and leaves the
planner untouched. -/
theorem c8_queue_full_atomic_witness :
    tcqFull tpC8.queue ∧
    tpAddSegmentToQueue tpC8 defaultTC (mkPose 1 0 0) = (-1, tpC8) ∧
    (tpAddLine refMath baseGlobals tpC8 (mkPose 1 0 0) 1 10 10 10 0 false (-1)).1 = -1 :=
  ⟨by decide,
    (c8_queue_full_atomic refMath baseGlobals tpC8 defaultTC (mkPose 1 0 0) 1 10 10 10 0
      false (-1) zeroCart zeroCart 0 (by decide)).1,
    (c8_queue_full_atomic refMath baseGlobals tpC8 defaultTC (mkPose 1 0 0) 1 10 10 10 0
      false (-1) zeroCart zeroCart 0 (by decide)).2.1.1⟩

/-- C7: tpAddRigidTap returns -1 with the planner untouched when spindle
synchronisation is not set; on a synchronised, non-aborting planner with
queue room it enqueues a segment whose reversal_target equals the XYZ line
magnitude, whose target equals reversal_target + 10 * uu_per_rev, whose
rigid-tap substate starts at TAPPING, and whose atspeed flag is forced
true. -/
theorem c7_rigid_tap_contract (M : MathModel) (g : Globals) (tp : TP_STRUCT)
    (e : EmcPose) (vel ini_maxvel acc : ℚ) (enables : Int) :
    (tp.synchronized = 0 →
      tpAddRigidTap M g tp e vel ini_maxvel acc enables = (-1, tp, g)) ∧
    (tp.synchronized ≠ 0 → tp.aborting = false → ¬ tcqFull tp.queue →
      (tpAddRigidTap M g tp e vel ini_maxvel acc enables).1 = 0 ∧
      ∃ s, (tpAddRigidTap M g tp e vel ini_maxvel acc
              enables).2.1.queue.elems.getLast? = some s ∧
        s.coords_rigidtap.reversal_target =
          (pmCartLineInit M (xyzOf tp.goalPos) (xyzOf e)).tmag ∧
        s.target = s.coords_rigidtap.reversal_target + 10 * tp.uu_per_rev ∧
        s.coords_rigidtap.state = TAPPING ∧
        s.atspeed = true) := by
  constructor
  · intro hsync
    unfold tpAddRigidTap
    by_cases hab : tp.aborting
    · simp [tpErrorCheck, hab]
    · simp [tpErrorCheck, hab, hsync]
  · intro hsync hab hnf
    unfold tpAddRigidTap
    simp only [tpErrorCheck, hab, if_false, hsync, ite_false, if_neg]
    rcases tpAddSegmentToQueue_cases tp (tpAddRigidTapTC M g tp e vel ini_maxvel acc
        enables) e with ⟨hfl, -⟩ | ⟨-, hq⟩
    · exact absurd hfl hnf
    · rw [hq]
      refine ⟨rfl, ⟨{ tpAddRigidTapTC M g tp e vel ini_maxvel acc enables with
        id := tp.nextId }, ?_, rfl, rfl, rfl, rfl⟩⟩
      exact List.getLast?_concat _

/-- C7 witness: a synchronised planner (uu_per_rev = 1/2) tapping to
(0,0,3): the enqueued segment has reversal_target 3, target 3 + 10*(1/2) = 8,
substate TAPPING and atspeed true. -/
theorem c7_rigid_tap_contract_witness :
    (tpC7.synchronized ≠ 0 ∧ tpC7.aborting = false ∧ ¬ tcqFull tpC7.queue) ∧
    ((tpAddRigidTap refMath baseGlobals tpC7 eC7 10 100 1000 0).1 = 0 ∧
      ∃ s, (tpAddRigidTap refMath baseGlobals tpC7 eC7 10 100 1000
              0).2.1.queue.elems.getLast? = some s ∧
        s.coords_rigidtap.reversal_target =
          (pmCartLineInit refMath (xyzOf tpC7.goalPos) (xyzOf eC7)).tmag ∧
        s.target = s.coords_rigidtap.reversal_target + 10 * tpC7.uu_per_rev ∧
        s.coords_rigidtap.state = TAPPING ∧
        s.atspeed = true) :=
  ⟨⟨by decide, by decide, by decide⟩,
    (c7_rigid_tap_contract refMath baseGlobals tpC7 eC7 10 100 1000 0).2
      (by decide) (by decide) (by decide)⟩

/-- C2 (amended): after every successful tpAddLine or tpAddCircle call the
newly enqueued segment satisfies maxvel ≤ 0.5 * target / cycle_time, via the
tpClipVelocityLimit call each of them makes; tpAddRigidTap never applies the
cap (see the counterexample). -/
theorem c2_sample_rate_cap_line_circle (M : MathModel) (g : Globals)
    (tp : TP_STRUCT) (e : EmcPose) (type : Int) (vel ini_maxvel acc : ℚ)
    (enables : Int) (atspeed : Bool) (indexrotary : Int)
    (center normal : PmCartesian) (turn : Int)
    (hct : 0 < tp.cycleTime) :
    ((tpAddLine M g tp e type vel ini_maxvel acc enables atspeed indexrotary).1 = 0 →
      ∃ s, (tpAddLine M g tp e type vel ini_maxvel acc enables atspeed
              indexrotary).2.1.queue.elems.getLast? = some s ∧
        s.maxvel ≤ 1 / 2 * s.target / tp.cycleTime) ∧
    ((tpAddCircle M g tp e center normal turn type vel ini_maxvel acc enables
        atspeed).1 = 0 →
      ∃ s, (tpAddCircle M g tp e center normal turn type vel ini_maxvel acc enables
              atspeed).2.1.queue.elems.getLast? = some s ∧
        s.maxvel ≤ 1 / 2 * s.target / tp.cycleTime) := by
  constructor
  · intro hs
    rcases tpAddLine_shape M g tp e type vel ini_maxvel acc enables atspeed indexrotary with
      ⟨-, hres⟩ | ⟨-, hres⟩
    · rw [hres] at hs
      exact absurd hs (by norm_num)
    · rw [hres] at hs ⊢
      set g1 := if g.syncdio.anychanged ≠ 0 then tpClearDIOsG g else g with hg1
      set tcL := tpAddLineTC M g tp e type vel ini_maxvel acc enables atspeed indexrotary
        with htcL
      rcases tpAddSegmentToQueue_cases (tpHandleBlendArc M g1.status tp tcL e).2.1
          (tpClipVelocityLimit (tpHandleBlendArc M g1.status tp tcL e).2.1
            (tpHandleBlendArc M g1.status tp tcL e).2.2) e with ⟨-, hq⟩ | ⟨-, hq⟩
      · rw [hq] at hs
        exact absurd hs (by norm_num)
      · rw [hq]
        refine ⟨_, List.getLast?_concat _, ?_⟩
        show (tpClipVelocityLimit (tpHandleBlendArc M g1.status tp tcL e).2.1
            (tpHandleBlendArc M g1.status tp tcL e).2.2).maxvel ≤
          1 / 2 * (tpClipVelocityLimit (tpHandleBlendArc M g1.status tp tcL e).2.1
            (tpHandleBlendArc M g1.status tp tcL e).2.2).target / tp.cycleTime
        rw [tpClipVelocityLimit_target,
          ← (tpHandleBlendArc_fields M g1.status tp tcL e).1]
        exact tpClipVelocityLimit_le _ _
  · intro hs
    unfold tpAddCircle at hs ⊢
    by_cases hab : tp.aborting
    · simp [tpErrorCheck, hab] at hs
    · simp only [tpErrorCheck, hab, if_false, if_neg] at hs ⊢
      rcases tpAddSegmentToQueue_cases tp
          (tpClipVelocityLimit tp (tpAddCircleTC M g tp e center normal turn type vel
            ini_maxvel acc enables atspeed)) e with ⟨-, hq⟩ | ⟨-, hq⟩
      · rw [hq] at hs
        exact absurd hs (by norm_num)
      · rw [hq]
        refine ⟨_, List.getLast?_concat _, ?_⟩
        show (tpClipVelocityLimit tp (tpAddCircleTC M g tp e center normal turn type vel
            ini_maxvel acc enables atspeed)).maxvel ≤
          1 / 2 * (tpClipVelocityLimit tp (tpAddCircleTC M g tp e center normal turn type
            vel ini_maxvel acc enables atspeed)).target / tp.cycleTime
        rw [tpClipVelocityLimit_target]
        exact tpClipVelocityLimit_le _ _

theorem ratSqrt_sq_nat (n : ℕ) : ratSqrt ((n : ℚ) * n) = n := by
  rcases Nat.eq_zero_or_pos n with rfl | hn
  · unfold ratSqrt
    norm_num
  · unfold ratSqrt
    have hpos : (0 : ℚ) < (n : ℚ) * n := by positivity
    rw [if_neg (not_le.mpr hpos)]
    have h1 : ((n : ℚ) * n) = ((n * n : ℕ) : ℚ) := by push_cast; ring
    rw [h1, Rat.num_natCast, Rat.den_natCast, Int.toNat_natCast, Nat.sqrt_eq]
    norm_num

/-- C2 counterexample: a successful tpAddRigidTap (line from the origin to
(3,4,0), so tmag = 5; uu_per_rev = 1/10, so target = 6) enqueues a segment
with maxvel = 10000, far above the sample-rate cap 0.5 * 6 / 0.001 = 3000:
tpAddRigidTap never calls tpClipVelocityLimit. -/
theorem c2_rigid_tap_escapes_cap :
    (tpAddRigidTap refMath baseGlobals tpC2 eC2 20000 10000 1000 0).1 = 0 ∧
    ((tpAddRigidTap refMath baseGlobals tpC2 eC2 20000 10000 1000
        0).2.1.queue.elems.getLast?).map TC_STRUCT.maxvel = some 10000 ∧
    ((tpAddRigidTap refMath baseGlobals tpC2 eC2 20000 10000 1000
        0).2.1.queue.elems.getLast?).map TC_STRUCT.target = some 6 ∧
    ¬ ((10000 : ℚ) ≤ 1 / 2 * 6 / tpC2.cycleTime) := by
  have h25 : ratSqrt 25 = 5 := by
    rw [show (25 : ℚ) = (5 : ℕ) * (5 : ℕ) by norm_num]
    exact_mod_cast ratSqrt_sq_nat 5
  simp only [tpAddRigidTap, tpAddRigidTapTC, tpInitializeNewSegment, tpErrorCheck,
    tpAddSegmentToQueue, tcqPut, tcqLen, pmCartLineInit, pmCartCartSub, pmCartCartDot,
    xyzOf, abcOf, uvwOf, refMath, baseGlobals, baseStatus, tpC2, baseTP, eC2, mkPose,
    zeroEmcPose, zeroCart, defaultTC, CART_FUZZ, TAPPING, zeroSyncDio]
  norm_num [h25, List.getLast?]

/-- C2 witness: a 1 ms planner satisfies the amended cap statement for
tpAddLine and tpAddCircle. -/
theorem c2_sample_rate_cap_line_circle_witness :
    (0 : ℚ) < baseTP.cycleTime ∧
    (((tpAddLine refMath baseGlobals baseTP (mkPose 1 0 0) 1 100 200 1000 0 false
        (-1)).1 = 0 →
      ∃ s, (tpAddLine refMath baseGlobals baseTP (mkPose 1 0 0) 1 100 200 1000 0 false
              (-1)).2.1.queue.elems.getLast? = some s ∧
        s.maxvel ≤ 1 / 2 * s.target / baseTP.cycleTime) ∧
    ((tpAddCircle refMath baseGlobals baseTP (mkPose 1 0 0) zeroCart ⟨0, 0, 1⟩ 0 1 100 200
        1000 0 false).1 = 0 →
      ∃ s, (tpAddCircle refMath baseGlobals baseTP (mkPose 1 0 0) zeroCart ⟨0, 0, 1⟩ 0 1
              100 200 1000 0 false).2.1.queue.elems.getLast? = some s ∧
        s.maxvel ≤ 1 / 2 * s.target / baseTP.cycleTime)) :=
  ⟨by norm_num [baseTP],
    c2_sample_rate_cap_line_circle refMath baseGlobals baseTP (mkPose 1 0 0) 1 100 200
      1000 0 false (-1) zeroCart ⟨0, 0, 1⟩ 0 (by norm_num [baseTP])⟩

theorem tcRunCyclePre_fields (tc : TC_STRUCT) :
    (tcRunCyclePre tc).currentvel = tc.currentvel ∧
    (tcRunCyclePre tc).term_cond = tc.term_cond ∧
    (tcRunCyclePre tc).progress = tc.progress ∧
    (tcRunCyclePre tc).target = tc.target := by
  unfold tcRunCyclePre
  split <;> exact ⟨rfl, rfl, rfl, rfl⟩

/-- C3 (amended): whenever the profiler's computed new velocity is negative,
the emitted velocity is forced to 0 while tc.currentvel is left unchanged
(the C branch never writes currentvel), and progress snaps to the target
unless the segment is tangent-terminated and already at or past its target:
a tangent segment still short of its target has its progress snapped too. -/
theorem c3_profiler_negative_velocity (M : MathModel) (tp : TP_STRUCT)
    (st : EmcmotStatus) (tc0 : TC_STRUCT)
    (hneg : tcNewVelRaw M tp st (tcRunCyclePre tc0) < 0) :
    (tcRunCycle M tp st tc0).v = 0 ∧
    (tcRunCycle M tp st tc0).tc.currentvel = tc0.currentvel ∧
    ((tc0.term_cond = TC_TERM_COND_TANGENT ∧ ¬ tc0.progress < tc0.target) →
      (tcRunCycle M tp st tc0).tc.progress = tc0.progress) ∧
    ((¬ tc0.term_cond = TC_TERM_COND_TANGENT ∨ tc0.progress < tc0.target) →
      (tcRunCycle M tp st tc0).tc.progress = tc0.target) := by
  obtain ⟨hcv, htc, hpr, htg⟩ := tcRunCyclePre_fields tc0
  unfold tcRunCycle
  rw [if_pos hneg]
  refine ⟨rfl, ?_, ?_, ?_⟩
  · by_cases hcond : ¬ ((tcRunCyclePre tc0).term_cond = TC_TERM_COND_TANGENT) ∨
      (tcRunCyclePre tc0).progress < (tcRunCyclePre tc0).target
    · rw [if_pos hcond]
      exact hcv
    · rw [if_neg hcond]
      exact hcv
  · rintro ⟨h1, h2⟩
    rw [if_neg]
    · exact hpr
    · rw [htc, hpr, htg]
      push_neg
      exact ⟨h1, le_of_not_lt h2⟩
  · intro h
    rw [if_pos]
    · exact htg
    · rw [htc, hpr, htg]
      exact h

/-- C3 counterexample: tcC3 is tangent-terminated with progress 0 < target
1/4 and its profiler step computes newvel = -1 < 0; the code snaps progress
to the target (the claim says a Tangent segment's progress is left
unchanged) and leaves currentvel at 1 (the claim says currentvel is forced
to 0 together with newvel). -/
theorem c3_tangent_progress_still_snapped :
    tcC3.term_cond = TC_TERM_COND_TANGENT ∧
    tcC3.progress = 0 ∧ tcC3.target = 1 / 4 ∧ tcC3.currentvel = 1 ∧
    tcNewVelRaw refMath baseTP baseStatus (tcRunCyclePre tcC3) < 0 ∧
    (tcRunCycle refMath baseTP baseStatus tcC3).tc.progress = 1 / 4 ∧
    (tcRunCycle refMath baseTP baseStatus tcC3).tc.currentvel = 1 := by
  refine ⟨rfl, rfl, rfl, rfl, ?_, ?_, ?_⟩
  · simp only [tcNewVelRaw, tcMaxNewVel, tcFinalVelClamped, tcReqVelClamped,
      tpGetFinalVel, tpGetReqVel, tpGetFeedOverride, tpGetScaledAccel, tcRunCyclePre,
      refMath, baseTP, baseStatus, tcC3, defaultTC, TC_TERM_COND_TANGENT, TC_LINEAR,
      EMC_MOTION_TYPE_TRAVERSE, TC_SYNC_POSITION]
    norm_num [ratSqrt]
  · simp only [tcRunCycle, tcNewVelRaw, tcMaxNewVel, tcFinalVelClamped, tcReqVelClamped,
      tpGetFinalVel, tpGetReqVel, tpGetFeedOverride, tpGetScaledAccel, tcRunCyclePre,
      saturate, refMath, baseTP, baseStatus, tcC3, defaultTC, TC_TERM_COND_TANGENT,
      TC_LINEAR, EMC_MOTION_TYPE_TRAVERSE, TC_SYNC_POSITION]
    norm_num [ratSqrt]
  · simp only [tcRunCycle, tcNewVelRaw, tcMaxNewVel, tcFinalVelClamped, tcReqVelClamped,
      tpGetFinalVel, tpGetReqVel, tpGetFeedOverride, tpGetScaledAccel, tcRunCyclePre,
      saturate, refMath, baseTP, baseStatus, tcC3, defaultTC, TC_TERM_COND_TANGENT,
      TC_LINEAR, EMC_MOTION_TYPE_TRAVERSE, TC_SYNC_POSITION]
    norm_num [ratSqrt]

/-- C3 witness: the amended statement applied to tcC3. -/
theorem c3_profiler_negative_velocity_witness :
    tcNewVelRaw refMath baseTP baseStatus (tcRunCyclePre tcC3) < 0 ∧
    ((tcRunCycle refMath baseTP baseStatus tcC3).v = 0 ∧
     (tcRunCycle refMath baseTP baseStatus tcC3).tc.currentvel = tcC3.currentvel ∧
     ((tcC3.term_cond = TC_TERM_COND_TANGENT ∧ ¬ tcC3.progress < tcC3.target) →
       (tcRunCycle refMath baseTP baseStatus tcC3).tc.progress = tcC3.progress) ∧
     ((¬ tcC3.term_cond = TC_TERM_COND_TANGENT ∨ tcC3.progress < tcC3.target) →
       (tcRunCycle refMath baseTP baseStatus tcC3).tc.progress = tcC3.target)) := by
  have hneg : tcNewVelRaw refMath baseTP baseStatus (tcRunCyclePre tcC3) < 0 := by
    simp only [tcNewVelRaw, tcMaxNewVel, tcFinalVelClamped, tcReqVelClamped,
      tpGetFinalVel, tpGetReqVel, tpGetFeedOverride, tpGetScaledAccel, tcRunCyclePre,
      refMath, baseTP, baseStatus, tcC3, defaultTC, TC_TERM_COND_TANGENT, TC_LINEAR,
      EMC_MOTION_TYPE_TRAVERSE, TC_SYNC_POSITION]
    norm_num [ratSqrt]
  exact ⟨hneg, c3_profiler_negative_velocity refMath baseTP baseStatus tcC3 hneg⟩

theorem tpCheckNeedBlendArc_one_iff (M : MathModel) (tp : TP_STRUCT)
    (prev tc : TC_STRUCT) (per : ℚ) :
    tpCheckNeedBlendArc M tp prev tc per = 1 ↔
      (¬ (pmCartCartDot prev.coords_line.xyz.uVec tc.coords_line.xyz.uVec > 1 ∨
          pmCartCartDot prev.coords_line.xyz.uVec tc.coords_line.xyz.uVec < -1) ∧
       M.acos (pmCartCartDot prev.coords_line.xyz.uVec tc.coords_line.xyz.uVec) <
         TP_ANGLE_EPSILON) := by
  unfold tpCheckNeedBlendArc tpCalculateUnitCartAngle
  by_cases hd : pmCartCartDot prev.coords_line.xyz.uVec tc.coords_line.xyz.uVec > 1 ∨
      pmCartCartDot prev.coords_line.xyz.uVec tc.coords_line.xyz.uVec < -1
  · simp [hd]
  · simp only [hd, if_false, if_neg, not_false_iff, true_and]
    by_cases homega : M.acos (pmCartCartDot prev.coords_line.xyz.uVec
        tc.coords_line.xyz.uVec) < TP_ANGLE_EPSILON
    · simp [homega]
    · simp only [homega, if_false, iff_false]
      split_ifs <;> norm_num

/-- C5 (amended): for a queued linear predecessor and an incoming line, the
handler promotes the predecessor's term_cond to Tangent (without creating an
arc) exactly when the predecessor has not started (progress ≤ 0) and the
intersection angle omega is computable and below crit_angle.  The promotion
does not require term_cond = Parabolic, nor small ABC/UVW magnitudes: those
checks sit after the nearly-tangent early return in tpCheckNeedBlendArc.  In
every other case the handler returns -1 with the planner and the new segment
unchanged (parabolic fall-back). -/
theorem c5_handler_promotion (M : MathModel) (st : EmcmotStatus) (tp : TP_STRUCT)
    (tc : TC_STRUCT) (e : EmcPose) (prev : TC_STRUCT)
    (hlast : tp.queue.elems.getLast? = some prev)
    (hlin1 : prev.motion_type = TC_LINEAR) (hlin2 : tc.motion_type = TC_LINEAR) :
    (tpHandleBlendArc M st tp tc e).2.2 = tc ∧
    (if ¬ prev.progress > 0 ∧
        ¬ (pmCartCartDot prev.coords_line.xyz.uVec tc.coords_line.xyz.uVec > 1 ∨
           pmCartCartDot prev.coords_line.xyz.uVec tc.coords_line.xyz.uVec < -1) ∧
        M.acos (pmCartCartDot prev.coords_line.xyz.uVec tc.coords_line.xyz.uVec) <
          TP_ANGLE_EPSILON
     then tpHandleBlendArc M st tp tc e =
       (0, { tp with
               queue := { tp.queue with
                            elems := tp.queue.elems.set (tp.queue.elems.length - 1)
                              { prev with term_cond := TC_TERM_COND_TANGENT } } }, tc)
     else tpHandleBlendArc M st tp tc e = (-1, tp, tc)) := by
  have hlast2 : tcqLast tp.queue = some prev := hlast
  refine ⟨(tpHandleBlendArc_cases M st tp tc e).1, ?_⟩
  unfold tpHandleBlendArc
  rw [hlast2]
  by_cases hp : prev.progress > 0
  · rw [if_neg (by simp [hp])]
    simp [hp]
  · by_cases hcond : ¬ (pmCartCartDot prev.coords_line.xyz.uVec tc.coords_line.xyz.uVec > 1 ∨
        pmCartCartDot prev.coords_line.xyz.uVec tc.coords_line.xyz.uVec < -1) ∧
        M.acos (pmCartCartDot prev.coords_line.xyz.uVec tc.coords_line.xyz.uVec) <
          TP_ANGLE_EPSILON
    · rw [if_pos ⟨hp, hcond⟩]
      have hone : tpCheckNeedBlendArc M tp prev tc tp.cycleTime = 1 :=
        (tpCheckNeedBlendArc_one_iff M tp prev tc tp.cycleTime).mpr hcond
      simp [hp, hone]
    · rw [if_neg (by tauto)]
      have hnone : tpCheckNeedBlendArc M tp prev tc tp.cycleTime ≠ 1 := by
        rw [Ne, tpCheckNeedBlendArc_one_iff]
        exact hcond
      by_cases h0 : tpCheckNeedBlendArc M tp prev tc tp.cycleTime = 0
      · have hfail := tpCreateBlendArc_fail M tp st prev tc defaultTC
        simp [hp, h0, hfail]
      · simp [hp, h0, hnone]

/-- C5 counterexample: a queued collinear predecessor with term_cond = Stop
(not Parabolic) is still promoted to Tangent by the handler — the
nearly-tangent promotion runs before the term_cond precondition is ever
checked, refuting "only when all attempt-preconditions hold". -/
theorem c5_stop_predecessor_promoted :
    prevC5.term_cond = TC_TERM_COND_STOP ∧
    prevC5.term_cond ≠ TC_TERM_COND_PARABOLIC ∧
    prevC5.progress = 0 ∧
    (tpHandleBlendArc refMath baseStatus tpC5 tcC5 (mkPose 1 0 0)).1 = 0 ∧
    ((tpHandleBlendArc refMath baseStatus tpC5 tcC5
        (mkPose 1 0 0)).2.1.queue.elems.get? 0).map TC_STRUCT.term_cond =
      some TC_TERM_COND_TANGENT := by
  refine ⟨rfl, by decide, rfl, ?_, ?_⟩ <;>
  · simp only [tpHandleBlendArc, tcqLast, tpCheckNeedBlendArc, tpCalculateUnitCartAngle,
      pmCartCartDot, tpC5, baseTP, prevC5, tcC5, defaultTC, zeroLineCoords, zeroLine,
      zeroCart, refMath, ratAcos, TP_ANGLE_EPSILON, TC_TERM_COND_TANGENT,
      TC_TERM_COND_STOP, TC_TERM_COND_PARABOLIC, TC_LINEAR, piQ, mkPose, baseStatus]
    norm_num

/-- C5 witness: the amended characterisation applied to the collinear
Stop-terminated predecessor, whose promotion condition holds. -/
theorem c5_handler_promotion_witness :
    tpC5.queue.elems.getLast? = some prevC5 ∧
    prevC5.motion_type = TC_LINEAR ∧ tcC5.motion_type = TC_LINEAR ∧
    ((tpHandleBlendArc refMath baseStatus tpC5 tcC5 (mkPose 1 0 0)).2.2 = tcC5 ∧
     (if ¬ prevC5.progress > 0 ∧
         ¬ (pmCartCartDot prevC5.coords_line.xyz.uVec tcC5.coords_line.xyz.uVec > 1 ∨
            pmCartCartDot prevC5.coords_line.xyz.uVec tcC5.coords_line.xyz.uVec < -1) ∧
         refMath.acos (pmCartCartDot prevC5.coords_line.xyz.uVec
           tcC5.coords_line.xyz.uVec) < TP_ANGLE_EPSILON
      then tpHandleBlendArc refMath baseStatus tpC5 tcC5 (mkPose 1 0 0) =
        (0, { tpC5 with
                queue := { tpC5.queue with
                             elems := tpC5.queue.elems.set (tpC5.queue.elems.length - 1)
                               { prevC5 with term_cond := TC_TERM_COND_TANGENT } } },
         tcC5)
      else tpHandleBlendArc refMath baseStatus tpC5 tcC5 (mkPose 1 0 0) =
        (-1, tpC5, tcC5))) :=
  ⟨rfl, rfl, rfl,
    c5_handler_promotion refMath baseStatus tpC5 tcC5 (mkPose 1 0 0) prevC5 rfl rfl rfl⟩

theorem tpOptLoop_preserve (M : MathModel) (tp : TP_STRUCT) (len : Int) :
    ∀ (fuel x : Nat) (q : List TC_STRUCT) (i : Nat) (s : TC_STRUCT),
      q.get? i = some s → s.term_cond ≠ TC_TERM_COND_TANGENT →
      (tpOptLoop M tp len fuel x q).get? i = some s := by
  intro fuel
  induction fuel with
  | zero =>
    intro x q i s hq hs
    simpa [tpOptLoop] using hq
  | succ f ih =>
    intro x q i s hq hs
    rw [tpOptLoop]
    cases h1 : tcqItemL q (len - (x : Int)) with
    | none => simpa using hq
    | some tc =>
      cases h2 : tcqItemL q (len - (x : Int) - 1) with
      | none => simpa using hq
      | some prev_tc =>
        dsimp only
        by_cases hterm : prev_tc.term_cond ≠ TC_TERM_COND_TANGENT
        · simpa [hterm] using hq
        · by_cases hprog : prev_tc.progress > 0
          · rw [if_neg hterm, if_pos hprog]
            exact hq
          · have h0 : 0 ≤ len - (x : Int) - 1 := by
              by_contra hneg
              rw [tcqItemL, if_neg hneg] at h2
              exact Option.noConfusion h2
            have hidx : q.get? (len - (x : Int) - 1).toNat = some prev_tc := by
              rw [tcqItemL, if_pos h0] at h2
              exact h2
            have hne : (len - (x : Int) - 1).toNat ≠ i := by
              intro hEq
              rw [hEq, hq] at hidx
              have h3 : s = prev_tc := Option.some_injective _ hidx
              rw [h3] at hs
              exact hterm hs
            rw [if_neg hterm, if_neg hprog]
            by_cases hpk : tc.atpeak
            · rw [if_pos hpk]
              rw [List.get?_set_ne _ _ hne]
              exact hq
            · rw [if_neg hpk]
              apply ih
              · rw [List.get?_set_ne _ _ hne]
                exact hq
              · exact hs

theorem tpRunOptimization_preserve (M : MathModel) (tpB : TP_STRUCT) (i : Nat)
    (s : TC_STRUCT) (hB : tpB.queue.elems.get? i = some s)
    (hBterm : s.term_cond ≠ TC_TERM_COND_TANGENT) :
    (tpRunOptimization M tpB).queue.elems.get? i = some s := by
  unfold tpRunOptimization
  dsimp only
  by_cases hlen : tcqLen tpB.queue < 2
  · rw [if_pos hlen]
    exact hB
  · rw [if_neg hlen]
    exact tpOptLoop_preserve M tpB _ _ _ _ _ _ hB hBterm

theorem tpRunOptimization_pair (M : MathModel) (tp0 : TP_STRUCT) (p t : TC_STRUCT)
    (hq : tp0.queue.elems = [p, t])
    (hterm : p.term_cond = TC_TERM_COND_TANGENT)
    (hprog : ¬ p.progress > 0) :
    ((tpRunOptimization M tp0).queue.elems.get? 0).map TC_STRUCT.finalvel =
      some (min (M.sqrt (t.finalvel ^ 2 + 2 * tpGetScaledAccel tp0 t * t.target))
        t.maxvel) ∧
    ((tpRunOptimization M tp0).queue.elems.get? 0).map TC_STRUCT.atpeak =
      some (decide (M.sqrt (t.finalvel ^ 2 + 2 * tpGetScaledAccel tp0 t * t.target) >
        t.maxvel)) ∧
    (tpRunOptimization M tp0).queue.elems.get? 1 = some t := by
  set vs := M.sqrt (t.finalvel ^ 2 + 2 * tpGetScaledAccel tp0 t * t.target) with hvs
  unfold tpRunOptimization
  rw [tcqLen, hq]
  rw [if_neg (by norm_num)]
  dsimp only
  rw [show (TP_LOOKAHEAD_DEPTH - 1 : Nat) = Nat.succ 8 from rfl, tpOptLoop]
  have hi1 : tcqItemL [p, t] ((2 : Int) - ((1 : Nat) : Int)) = some t := by
    simp [tcqItemL]
  have hi0 : tcqItemL [p, t] ((2 : Int) - ((1 : Nat) : Int) - 1) = some p := by
    simp [tcqItemL]
  rw [show (([p, t] : List TC_STRUCT).length : Int) = (2 : Int) by simp, hi1, hi0]
  dsimp only
  rw [if_neg (by simp [hterm]), if_neg hprog]
  set p2 := optPairUpdate M tp0 p t with hp2
  have hp2i : p2 = if vs > t.maxvel
      then { p with finalvel := t.maxvel, atpeak := true }
      else { p with finalvel := vs, atpeak := false } := by
    rw [hp2, hvs]
    simp only [optPairUpdate]
  have hset : ([p, t].set ((2 : Int) - ((1 : Nat) : Int) - 1).toNat p2) = [p2, t] := by
    norm_num
  rw [hset]
  have hfin : ((([p2, t] : List TC_STRUCT).get? 0).map TC_STRUCT.finalvel =
        some (min vs t.maxvel) ∧
      (([p2, t] : List TC_STRUCT).get? 0).map TC_STRUCT.atpeak =
        some (decide (vs > t.maxvel)) ∧
      ([p2, t] : List TC_STRUCT).get? 1 = some t) := by
    by_cases hgt : vs > t.maxvel
    · rw [hp2i, if_pos hgt]
      refine ⟨?_, ?_, rfl⟩
      · rw [min_eq_right (le_of_lt hgt)]
        rfl
      · simp [hgt]
    · rw [hp2i, if_neg hgt]
      refine ⟨?_, ?_, rfl⟩
      · rw [min_eq_left (le_of_not_lt hgt)]
        rfl
      · simp [hgt]
  by_cases hpk : t.atpeak
  · rw [if_pos hpk]
    exact hfin
  · rw [if_neg hpk]
    rw [show (8 : Nat) = Nat.succ 7 from rfl, tpOptLoop]
    have hi2 : tcqItemL [p2, t] ((2 : Int) - (((1 : Nat) + 1 : Nat) : Int)) = some p2 := by
      simp [tcqItemL]
    have hi3 : tcqItemL [p2, t] ((2 : Int) - (((1 : Nat) + 1 : Nat) : Int) - 1) =
        (none : Option TC_STRUCT) := by
      simp [tcqItemL]
    rw [hi2, hi3]
    exact hfin

theorem tcqItemL_bounds {q : List TC_STRUCT} {i : Int} {tc : TC_STRUCT}
    (h : tcqItemL q i = some tc) : 0 ≤ i ∧ q.get? i.toNat = some tc := by
  rw [tcqItemL] at h
  by_cases h0 : 0 ≤ i
  · rw [if_pos h0] at h
    exact ⟨h0, h⟩
  · rw [if_neg h0] at h
    exact absurd h (by simp)

theorem tpOptLoop_untouched (M : MathModel) (tp : TP_STRUCT) (len : Int) :
    ∀ (fuel x : Nat) (q : List TC_STRUCT) (j : Nat),
      len - (x : Int) ≤ (j : Int) →
      (tpOptLoop M tp len fuel x q).get? j = q.get? j := by
  intro fuel
  induction fuel with
  | zero =>
    intro x q j _
    rw [tpOptLoop]
  | succ f ih =>
    intro x q j hj
    rw [tpOptLoop]
    cases h1 : tcqItemL q (len - (x : Int)) with
    | none => rfl
    | some tc =>
      cases h2 : tcqItemL q (len - (x : Int) - 1) with
      | none => rfl
      | some prev_tc =>
        dsimp only
        by_cases hterm : prev_tc.term_cond ≠ TC_TERM_COND_TANGENT
        · rw [if_pos hterm]
        · by_cases hprog : prev_tc.progress > 0
          · rw [if_neg hterm, if_pos hprog]
          · rw [if_neg hterm, if_neg hprog]
            obtain ⟨h0, -⟩ := tcqItemL_bounds h2
            have hne : (len - (x : Int) - 1).toNat ≠ j := by
              intro hEq
              have hc : ((len - (x : Int) - 1).toNat : Int) = len - (x : Int) - 1 :=
                Int.toNat_of_nonneg h0
              rw [hEq] at hc
              omega
            have hset : (q.set (len - (x : Int) - 1).toNat
                (optPairUpdate M tp prev_tc tc)).get? j = q.get? j :=
              List.get?_set_ne _ _ hne
            by_cases hpk : tc.atpeak
            · rw [if_pos hpk]
              exact hset
            · rw [if_neg hpk]
              rw [ih (x + 1) _ j (by push_cast; omega)]
              exact hset

theorem tpOptProcessed_bounds (M : MathModel) (tp : TP_STRUCT) (len : Int) :
    ∀ (fuel x : Nat) (q : List TC_STRUCT) (j : Nat),
      tpOptProcessed M tp len fuel x q j →
      0 ≤ len - (x : Int) - 1 ∧ (j : Int) ≤ len - (x : Int) - 1 := by
  intro fuel
  induction fuel with
  | zero =>
    intro x q j h
    rw [tpOptProcessed] at h
    exact absurd h not_false
  | succ f ih =>
    intro x q j h
    rw [tpOptProcessed] at h
    cases h1 : tcqItemL q (len - (x : Int)) with
    | none =>
      rw [h1] at h
      exact absurd h not_false
    | some tc =>
      cases h2 : tcqItemL q (len - (x : Int) - 1) with
      | none =>
        rw [h1, h2] at h
        exact absurd h not_false
      | some prev_tc =>
        rw [h1, h2] at h
        dsimp only at h
        by_cases hterm : prev_tc.term_cond ≠ TC_TERM_COND_TANGENT
        · rw [if_pos hterm] at h
          exact absurd h not_false
        · by_cases hprog : prev_tc.progress > 0
          · rw [if_neg hterm, if_pos hprog] at h
            exact absurd h not_false
          · rw [if_neg hterm, if_neg hprog] at h
            obtain ⟨h0, -⟩ := tcqItemL_bounds h2
            have hc : ((len - (x : Int) - 1).toNat : Int) = len - (x : Int) - 1 :=
              Int.toNat_of_nonneg h0
            cases h with
            | inl hEq =>
              rw [hEq]
              exact ⟨h0, le_of_eq hc⟩
            | inr hrec =>
              obtain ⟨-, hb1⟩ := ih (x + 1) _ j hrec.2
              refine ⟨h0, ?_⟩
              push_cast at hb1 ⊢
              omega

theorem tpOptLoop_processed (M : MathModel) (tp : TP_STRUCT) (len : Int) :
    ∀ (fuel x : Nat) (q : List TC_STRUCT) (j : Nat),
      tpOptProcessed M tp len fuel x q j →
      ∃ p tcn, q.get? j = some p ∧
        p.term_cond = TC_TERM_COND_TANGENT ∧ ¬ p.progress > 0 ∧
        (tpOptLoop M tp len fuel x q).get? (j + 1) = some tcn ∧
        (tpOptLoop M tp len fuel x q).get? j = some (optPairUpdate M tp p tcn) := by
  intro fuel
  induction fuel with
  | zero =>
    intro x q j h
    rw [tpOptProcessed] at h
    exact absurd h not_false
  | succ f ih =>
    intro x q j h
    rw [tpOptProcessed] at h
    rw [tpOptLoop]
    cases h1 : tcqItemL q (len - (x : Int)) with
    | none =>
      rw [h1] at h
      exact absurd h not_false
    | some tc =>
      cases h2 : tcqItemL q (len - (x : Int) - 1) with
      | none =>
        rw [h1, h2] at h
        exact absurd h not_false
      | some prev_tc =>
        rw [h1, h2] at h
        dsimp only at h
        dsimp only
        by_cases hterm : prev_tc.term_cond ≠ TC_TERM_COND_TANGENT
        · rw [if_pos hterm] at h
          exact absurd h not_false
        · by_cases hprog : prev_tc.progress > 0
          · rw [if_neg hterm, if_pos hprog] at h
            exact absurd h not_false
          · rw [if_neg hterm, if_neg hprog] at h
            rw [if_neg hterm, if_neg hprog]
            obtain ⟨h0, hidx0⟩ := tcqItemL_bounds h2
            obtain ⟨h0t, hidx1⟩ := tcqItemL_bounds h1
            have hterm2 : prev_tc.term_cond = TC_TERM_COND_TANGENT := not_not.mp hterm
            have hc : ((len - (x : Int) - 1).toNat : Int) = len - (x : Int) - 1 :=
              Int.toNat_of_nonneg h0
            have hct : ((len - (x : Int)).toNat : Int) = len - (x : Int) :=
              Int.toNat_of_nonneg h0t
            cases h with
            | inl hEq =>
              refine ⟨prev_tc, tc, ?_, hterm2, hprog, ?_, ?_⟩
              · rw [hEq]
                exact hidx0
              · have hsucc : j + 1 = (len - (x : Int)).toNat := by omega
                have hne : (len - (x : Int) - 1).toNat ≠ j + 1 := by omega
                have hset : (q.set (len - (x : Int) - 1).toNat
                    (optPairUpdate M tp prev_tc tc)).get? (j + 1) = q.get? (j + 1) :=
                  List.get?_set_ne _ _ hne
                by_cases hpk : tc.atpeak
                · rw [if_pos hpk, hset, hsucc]
                  exact hidx1
                · rw [if_neg hpk]
                  rw [tpOptLoop_untouched M tp len f (x + 1) _ (j + 1)
                    (by push_cast; omega)]
                  rw [hset, hsucc]
                  exact hidx1
              · have hset : (q.set (len - (x : Int) - 1).toNat
                    (optPairUpdate M tp prev_tc tc)).get? j =
                    some (optPairUpdate M tp prev_tc tc) := by
                  rw [hEq, List.get?_set_eq, hidx0]
                  rfl
                by_cases hpk : tc.atpeak
                · rw [if_pos hpk]
                  exact hset
                · rw [if_neg hpk]
                  rw [tpOptLoop_untouched M tp len f (x + 1) _ j
                    (by rw [hEq]; push_cast; omega)]
                  exact hset
            | inr hrec =>
              obtain ⟨hpk, hproc⟩ := hrec
              have hpkn : ¬ (tc.atpeak = true) := by
                rw [hpk]
                exact Bool.false_ne_true
              obtain ⟨-, hb1⟩ := tpOptProcessed_bounds M tp len f (x + 1) _ j hproc
              obtain ⟨p, tcn, hp, hpterm, hpprog, htn, hres⟩ := ih (x + 1) _ j hproc
              have hne : (len - (x : Int) - 1).toNat ≠ j := by
                push_cast at hb1
                omega
              refine ⟨p, tcn, ?_, hpterm, hpprog, ?_, ?_⟩
              · rw [← hp]
                exact (List.get?_set_ne _ _ hne).symm
              · rw [if_neg hpkn]
                exact htn
              · rw [if_neg hpkn]
                exact hres

theorem optPairUpdate_min (M : MathModel) (tp : TP_STRUCT) (p t : TC_STRUCT) :
    optPairUpdate M tp p t =
      { p with
        finalvel := min (M.sqrt (t.finalvel ^ 2 + 2 * tpGetScaledAccel tp t * t.target))
          t.maxvel,
        atpeak := decide (M.sqrt (t.finalvel ^ 2 + 2 * tpGetScaledAccel tp t * t.target) >
          t.maxvel) } := by
  unfold optPairUpdate
  dsimp only
  by_cases hgt : M.sqrt (t.finalvel ^ 2 + 2 * tpGetScaledAccel tp t * t.target) > t.maxvel
  · rw [if_pos hgt, min_eq_right (le_of_lt hgt), decide_eq_true hgt]
  · rw [if_neg hgt, min_eq_left (le_of_not_lt hgt), decide_eq_false hgt]

theorem c4_hproc_concrete :
    tpOptProcessed refMath tpC4 (tcqLen tpC4.queue) (TP_LOOKAHEAD_DEPTH - 1) 1
      tpC4.queue.elems 0 := by
  rw [show tcqLen tpC4.queue = 2 by rw [tcqLen]; rfl]
  rw [show tpC4.queue.elems = [pC4, tC4] from rfl]
  rw [show (TP_LOOKAHEAD_DEPTH - 1 : Nat) = Nat.succ 8 from rfl, tpOptProcessed]
  have hi1 : tcqItemL [pC4, tC4] ((2 : Int) - ((1 : Nat) : Int)) = some tC4 := by
    simp [tcqItemL]
  have hi0 : tcqItemL [pC4, tC4] ((2 : Int) - ((1 : Nat) : Int) - 1) = some pC4 := by
    simp [tcqItemL]
  rw [hi1, hi0]
  dsimp only
  rw [if_neg (by rw [not_not]; rfl), if_neg (by norm_num [pC4, defaultTC])]
  left
  decide

/-- C4 (amended): after the look-ahead optimiser runs, every adjacent queued
pair the backward walk reached and processed — the predecessor at index j is
tangent-terminated and has not started — satisfies
prev.finalvel = min(sqrt(tc.finalvel^2 + 2*scaled_accel*tc.target), tc.maxvel),
bounded by the SUCCESSOR's maxvel, not the segment's own, with atpeak set
exactly when vs is strictly greater than tc.maxvel (at vs = tc.maxvel the
code clears atpeak); and every queued segment whose term_cond is not Tangent
is left entirely unchanged by the optimiser (in particular its finalvel
stays 0 when it was 0). -/
theorem c4_lookahead_optimizer (M : MathModel) (tp0 tpB : TP_STRUCT)
    (j i : Nat) (s : TC_STRUCT)
    (hproc : tpOptProcessed M tp0 (tcqLen tp0.queue) (TP_LOOKAHEAD_DEPTH - 1) 1
      tp0.queue.elems j)
    (hB : tpB.queue.elems.get? i = some s)
    (hBterm : s.term_cond ≠ TC_TERM_COND_TANGENT) :
    (∃ p tcn, tp0.queue.elems.get? j = some p ∧
      p.term_cond = TC_TERM_COND_TANGENT ∧ ¬ p.progress > 0 ∧
      (tpRunOptimization M tp0).queue.elems.get? (j + 1) = some tcn ∧
      (tpRunOptimization M tp0).queue.elems.get? j = some
        { p with
          finalvel := min (M.sqrt (tcn.finalvel ^ 2 +
            2 * tpGetScaledAccel tp0 tcn * tcn.target)) tcn.maxvel,
          atpeak := decide (M.sqrt (tcn.finalvel ^ 2 +
            2 * tpGetScaledAccel tp0 tcn * tcn.target) > tcn.maxvel) }) ∧
    (tpRunOptimization M tpB).queue.elems.get? i = some s := by
  refine ⟨?_, tpRunOptimization_preserve M tpB i s hB hBterm⟩
  have hlen : ¬ tcqLen tp0.queue < 2 := by
    obtain ⟨hb, -⟩ := tpOptProcessed_bounds M tp0 (tcqLen tp0.queue)
      (TP_LOOKAHEAD_DEPTH - 1) 1 tp0.queue.elems j hproc
    push_cast at hb
    omega
  have hrun : (tpRunOptimization M tp0).queue.elems =
      tpOptLoop M tp0 (tcqLen tp0.queue) (TP_LOOKAHEAD_DEPTH - 1) 1 tp0.queue.elems := by
    unfold tpRunOptimization
    dsimp only
    rw [if_neg hlen]
  obtain ⟨p, tcn, hp, hpterm, hpprog, htn, hres⟩ :=
    tpOptLoop_processed M tp0 (tcqLen tp0.queue) (TP_LOOKAHEAD_DEPTH - 1) 1
      tp0.queue.elems j hproc
  refine ⟨p, tcn, hp, hpterm, hpprog, ?_, ?_⟩
  · rw [hrun]
    exact htn
  · rw [hrun, hres, optPairUpdate_min]

/-- C4 counterexample: with vs = sqrt(0 + 2*2*1) = 2 equal to the
successor's maxvel 2, the optimiser stores prev.finalvel = 2 but clears
atpeak (the claim says atpeak is set when vs ≥ maxvel), and 2 exceeds the
predecessor's own maxvel 1 (the claim says finalvel ≤ its own maxvel). -/
theorem c4_vs_at_maxvel_no_peak :
    pC4.maxvel = 1 ∧ tC4.maxvel = 2 ∧
    refMath.sqrt (tC4.finalvel ^ 2 + 2 * tpGetScaledAccel tpC4 tC4 * tC4.target) = 2 ∧
    ((tpRunOptimization refMath tpC4).queue.elems.get? 0).map TC_STRUCT.finalvel =
      some 2 ∧
    ((tpRunOptimization refMath tpC4).queue.elems.get? 0).map TC_STRUCT.atpeak =
      some false ∧
    ¬ ((2 : ℚ) ≤ pC4.maxvel) := by
  have hvs : refMath.sqrt (tC4.finalvel ^ 2 + 2 * tpGetScaledAccel tpC4 tC4 *
      tC4.target) = 2 := by
    have h4 : ratSqrt 4 = 2 := by
      rw [show (4 : ℚ) = (2 : ℕ) * (2 : ℕ) by norm_num]
      exact_mod_cast ratSqrt_sq_nat 2
    rw [show tC4.finalvel ^ 2 + 2 * tpGetScaledAccel tpC4 tC4 * tC4.target = 4 by
      norm_num [tC4, defaultTC, tpGetScaledAccel]]
    exact h4
  obtain ⟨h1, h2, -⟩ := tpRunOptimization_pair refMath tpC4 pC4 tC4 rfl rfl
    (by norm_num [pC4, defaultTC])
  have hmax : tC4.maxvel = 2 := rfl
  rw [hvs, hmax] at h1 h2
  refine ⟨rfl, rfl, hvs, ?_, ?_, by norm_num [pC4, defaultTC]⟩
  · rw [h1]
    norm_num
  · rw [h2]
    norm_num

/-- C4 witness: the amended statement applied to the walk-processed pair at
index 0 of [pC4, tC4] and, for the preservation half, to the parabolic
segment sC4 at index 0 of tpC4b. -/
theorem c4_lookahead_optimizer_witness :
    (tpOptProcessed refMath tpC4 (tcqLen tpC4.queue) (TP_LOOKAHEAD_DEPTH - 1) 1
        tpC4.queue.elems 0 ∧
      tpC4b.queue.elems.get? 0 = some sC4 ∧
      sC4.term_cond ≠ TC_TERM_COND_TANGENT) ∧
    ((∃ p tcn, tpC4.queue.elems.get? 0 = some p ∧
        p.term_cond = TC_TERM_COND_TANGENT ∧ ¬ p.progress > 0 ∧
        (tpRunOptimization refMath tpC4).queue.elems.get? (0 + 1) = some tcn ∧
        (tpRunOptimization refMath tpC4).queue.elems.get? 0 = some
          { p with
            finalvel := min (refMath.sqrt (tcn.finalvel ^ 2 +
              2 * tpGetScaledAccel tpC4 tcn * tcn.target)) tcn.maxvel,
            atpeak := decide (refMath.sqrt (tcn.finalvel ^ 2 +
              2 * tpGetScaledAccel tpC4 tcn * tcn.target) > tcn.maxvel) }) ∧
      (tpRunOptimization refMath tpC4b).queue.elems.get? 0 = some sC4) :=
  ⟨⟨c4_hproc_concrete, rfl, by decide⟩,
    c4_lookahead_optimizer refMath tpC4 tpC4b 0 0 sC4 c4_hproc_concrete rfl (by decide)⟩
